import Mathlib

/-!
Shallow embedding of the approval service of this repository.
Namespace `Backend` embeds backend/api/v1/core/approval_service.py and
namespace `AI9` embeds AI9-main/backend/api/v1/core/approval_service.py.
Monetary amounts are integers in exact minor units (the data model mandates
decimal minor-unit precision; binary float rounding is not modelled),
timestamps are abstract naturals passed in
as `now`, and generated uuids come from a counter carried in the database
state.  Human-readable event titles and message bodies are elided from the
event records; the structured fields the service passes to emit_event
(event type, reference, user, amount, old and new amount for adjustment
events, requires_action) are kept.
-/

namespace Approval

inductive ActorType where
  | admin
  | telegram_bot
  | system
deriving DecidableEq

def ActorType.str : ActorType → String
  | .admin => "admin"
  | .telegram_bot => "telegram_bot"
  | .system => "system"

/-- Execution result payload: the dict stored (serialized) in
orders.execution_result; `message` holds the textual result the AI9
variant stores. -/
structure ExecResult where
  success : Bool
  error : Option String
  message : Option String
  load_id : Option String
  credited : Option ℤ
  wallet_balance : Option ℤ
  payout_amount : Option ℤ
  void_amount : Option ℤ
deriving DecidableEq

def emptyExec : ExecResult :=
  { success := false, error := none, message := none, load_id := none,
    credited := none, wallet_balance := none, payout_amount := none, void_amount := none }

/-- A row of the orders table, with the columns the approval service reads
or writes. -/
structure Order where
  order_id : String
  user_id : String
  order_type : String
  amount : ℤ
  bonus_amount : ℤ
  total_amount : ℤ
  payout_amount : Option ℤ
  void_amount : Option ℤ
  game_name : String
  payment_method : String
  status : String
  execution_attempts : Nat
  approved_by : Option String
  approved_by_type : Option String
  approved_by_id : Option String
  approved_at : Option Nat
  rejection_reason : Option String
  amount_adjusted : Bool
  adjusted_by : Option String
  adjusted_at : Option Nat
  executed_at : Option Nat
  execution_result : Option ExecResult
  execution_error : Option String
deriving DecidableEq

/-- A row of the users table. -/
structure User where
  user_id : String
  username : String
  display_name : String
  real_balance : ℤ
  bonus_balance : ℤ
  deposit_count : Nat
  total_deposited : ℤ
  total_withdrawn : ℤ
deriving DecidableEq

/-- A row of the wallet_load_requests table. -/
structure WalletLoadRequest where
  request_id : String
  user_id : String
  amount : ℤ
  payment_method : String
  status : String
  reviewed_by : Option String
  reviewed_at : Option Nat
  rejection_reason : Option String
deriving DecidableEq

/-- A row of the immutable wallet_ledger table. -/
structure LedgerEntry where
  ledger_id : String
  user_id : String
  transaction_type : String
  amount : ℤ
  balance_before : ℤ
  balance_after : ℤ
  reference_type : String
  reference_id : String
  description : String
deriving DecidableEq

/-- A row of the games table. -/
structure Game where
  game_id : String
  game_name : String
  display_name : String
deriving DecidableEq

/-- A row of the game_loads table; the generated credentials are kept as
the game token derived from the load id. -/
structure GameLoad where
  load_id : String
  user_id : String
  game_id : String
  game_name : String
  amount : ℤ
  wallet_balance_before : ℤ
  wallet_balance_after : ℤ
  status : String
  game_token : String
deriving DecidableEq

/-- A row of the telegram_bots table. -/
structure Bot where
  bot_id : String
  is_active : Bool
  can_approve_payments : Bool
  can_approve_wallet_loads : Bool
deriving DecidableEq

/-- A structured record of one emit_event call. -/
structure Event where
  etype : String
  reference_id : String
  reference_type : String
  user_id : String
  amount : Option ℤ
  old_amount : Option ℤ
  new_amount : Option ℤ
  requires_action : Bool
deriving DecidableEq

/-- The shared relational store. -/
structure DB where
  orders : List Order
  users : List User
  wallet_load_requests : List WalletLoadRequest
  ledger : List LedgerEntry
  game_loads : List GameLoad
  games : List Game
  bots : List Bot
  events : List Event
  next_id : Nat
deriving DecidableEq

/-- Return value of the approval entry points; `already_processed` is the
flag the service puts into the data payload when the idempotency guard
trips. -/
structure ApprovalResult where
  success : Bool
  message : String
  already_processed : Bool
deriving DecidableEq

def mkFail (m : String) : ApprovalResult :=
  { success := false, message := m, already_processed := false }

def freshId (n : Nat) : String := "uuid-" ++ toString n

/-- Python truthiness of an optional string argument. -/
def truthy : Option String → Bool
  | some s => s != ""
  | none => false

def fetchOrder (db : DB) (oid : String) : Option Order :=
  db.orders.find? (fun o => o.order_id == oid)

def fetchUser (db : DB) (uid : String) : Option User :=
  db.users.find? (fun u => u.user_id == uid)

def fetchBot (db : DB) (bid : String) : Option Bot :=
  db.bots.find? (fun b => b.bot_id == bid)

/-- SELECT FROM games WHERE game_name = $1 OR game_id = $1. -/
def fetchGame (db : DB) (g : String) : Option Game :=
  db.games.find? (fun gm => gm.game_name == g || gm.game_id == g)

/-- The wallet-load query joins the request with its owning user row. -/
def fetchLoadRequest (db : DB) (rid : String) : Option (WalletLoadRequest × User) :=
  match db.wallet_load_requests.find? (fun r => r.request_id == rid) with
  | none => none
  | some r =>
    match fetchUser db r.user_id with
    | none => none
    | some u => some (r, u)

def updateOrder (db : DB) (oid : String) (f : Order → Order) : DB :=
  { db with orders := db.orders.map (fun o => if o.order_id == oid then f o else o) }

def updateUser (db : DB) (uid : String) (f : User → User) : DB :=
  { db with users := db.users.map (fun u => if u.user_id == uid then f u else u) }

def updateLoadRequest (db : DB) (rid : String) (f : WalletLoadRequest → WalletLoadRequest) : DB :=
  { db with wallet_load_requests :=
      db.wallet_load_requests.map (fun r => if r.request_id == rid then f r else r) }

def emit (db : DB) (e : Event) : DB :=
  { db with events := e :: db.events }

/-- Bot permission validation shared by both entry points: the check only
runs when the actor is the Telegram bot and a truthy bot id was supplied. -/
def botAuthFailure (db : DB) (atype : ActorType) (bot_id : Option String)
    (cap : Bot → Bool) (capMsg : String) : Option ApprovalResult :=
  if atype = ActorType.telegram_bot ∧ truthy bot_id then
    match fetchBot db (bot_id.getD "") with
    | none => some (mkFail "Bot not found")
    | some bot =>
      if bot.is_active = false then some (mkFail "Bot is not active")
      else if cap bot = false then some (mkFail capMsg)
      else none
  else none

namespace Backend

/-- Statuses accepted by the idempotency check of approve_or_reject_order
in the backend variant. -/
def pendingStatuses : List String :=
  ["pending", "PENDING_REVIEW", "initiated", "awaiting_payment_proof"]

/-- Canonical terminal statuses written by the order approval path. -/
def canonicalStatuses : List String :=
  ["PENDING_REVIEW", "APPROVED_EXECUTED", "APPROVED_FAILED", "REJECTED"]

/-- execute_game_load: resolve the game, read the fresh wallet balance,
fail when the deduction would go negative, otherwise deduct, record the
game load and append the debit ledger entry (whose reference_id is the
new load id). -/
def execute_game_load (db : DB) (order : Order) (user : User) : DB × ExecResult :=
  let load_id := freshId db.next_id
  let game_name := order.game_name
  let amount := order.amount
  match fetchGame db game_name with
  | none => (db, { emptyExec with success := false, error := some ("Game not found: " ++ game_name) })
  | some game =>
    let wallet_balance_before := ((fetchUser db user.user_id).map User.real_balance).getD 0
    let new_balance := wallet_balance_before - amount
    if new_balance < 0 then
      (db, { emptyExec with success := false, error := some "Insufficient wallet balance" })
    else
      let db1 := updateUser db user.user_id (fun u => { u with real_balance := new_balance })
      let gl : GameLoad :=
        { load_id := load_id, user_id := user.user_id, game_id := game.game_id,
          game_name := game.game_name, amount := amount,
          wallet_balance_before := wallet_balance_before, wallet_balance_after := new_balance,
          status := "completed", game_token := "GT-" ++ load_id.take 8 }
      let db2 := { db1 with game_loads := gl :: db1.game_loads }
      let e : LedgerEntry :=
        { ledger_id := freshId (db.next_id + 1), user_id := user.user_id,
          transaction_type := "debit", amount := amount,
          balance_before := wallet_balance_before, balance_after := new_balance,
          reference_type := "game_load", reference_id := load_id,
          description := "Game load: " ++ game.display_name ++ " (Order: " ++ order.order_id.take 8 ++ ")" }
      let db3 := { db2 with ledger := e :: db2.ledger, next_id := db.next_id + 2 }
      (db3, { emptyExec with
              success := true, load_id := some load_id,
              credited := some amount, wallet_balance := some new_balance })

/-- execute_withdrawal: reads the remaining balance after the deduction
already performed by the caller and always reports success. -/
def execute_withdrawal (db : DB) (order : Order) (user : User) : ExecResult :=
  let payout_amount :=
    match order.payout_amount with
    | some p => if p = 0 then order.amount else p
    | none => order.amount
  let void_amount := order.void_amount.getD 0
  let balance_after := ((fetchUser db user.user_id).map User.real_balance).getD 0
  { emptyExec with
    success := true, payout_amount := some payout_amount,
    void_amount := some void_amount, wallet_balance := some balance_after }

/-- The wallet_topup and legacy deposit branch of _process_approval:
credit the snapshot balance, bump the deposit counters and append a credit
ledger entry referencing the order. -/
def creditStrategy (db : DB) (order : Order) (user : User) (amount bonus_amount : ℤ)
    (now : Nat) : DB × String × Option ExecResult × Option String × Option Nat :=
  let current_balance := user.real_balance
  let new_balance := current_balance + amount
  let db1 := updateUser db user.user_id (fun u =>
    { u with real_balance := new_balance, bonus_balance := u.bonus_balance + bonus_amount,
             deposit_count := u.deposit_count + 1, total_deposited := u.total_deposited + amount })
  let e : LedgerEntry :=
    { ledger_id := freshId db1.next_id, user_id := user.user_id,
      transaction_type := "credit", amount := amount, balance_before := current_balance,
      balance_after := new_balance, reference_type := "order", reference_id := order.order_id,
      description := "Wallet top-up via " ++ order.payment_method }
  let db2 := { db1 with ledger := e :: db1.ledger, next_id := db1.next_id + 1 }
  let res := { emptyExec with
               success := true, credited := some amount,
               wallet_balance := some new_balance }
  (db2, "APPROVED_EXECUTED", some res, none, some now)

/-- The game_load branch of _process_approval: immediate execution via
execute_game_load; a failure emits GAME_LOAD_FAILED and yields
APPROVED_FAILED. -/
def gameLoadStrategy (db : DB) (order : Order) (user : User) (now : Nat) :
    DB × String × Option ExecResult × Option String × Option Nat :=
  let out := execute_game_load db order user
  if out.2.success then
    (out.1, "APPROVED_EXECUTED", some out.2, none, some now)
  else
    let err := out.2.error.getD "Game load execution failed"
    let db2 := emit out.1
      { etype := "GAME_LOAD_FAILED", reference_id := order.order_id,
        reference_type := "order", user_id := user.user_id, amount := none,
        old_amount := none, new_amount := none, requires_action := true }
    (db2, "APPROVED_FAILED", some out.2, some err, some now)

/-- The withdrawal branch of _process_approval: raise (caught in place) on
insufficient balance before any write, otherwise debit the snapshot
balance, append a debit ledger entry referencing the order and run
execute_withdrawal. -/
def withdrawalStrategy (db : DB) (order : Order) (user : User) (amount : ℤ) (now : Nat) :
    DB × String × Option ExecResult × Option String × Option Nat :=
  let current_balance := user.real_balance
  let new_balance := current_balance - amount
  if new_balance < 0 then
    let err := "Withdrawal failed: Insufficient balance for withdrawal"
    (db, "APPROVED_FAILED", some { emptyExec with success := false, error := some err },
     some err, some now)
  else
    let db1 := updateUser db user.user_id (fun u =>
      { u with real_balance := new_balance, total_withdrawn := u.total_withdrawn + amount })
    let e : LedgerEntry :=
      { ledger_id := freshId db1.next_id, user_id := user.user_id,
        transaction_type := "debit", amount := amount, balance_before := current_balance,
        balance_after := new_balance, reference_type := "withdrawal",
        reference_id := order.order_id,
        description := "Withdrawal to " ++ order.payment_method }
    let db2 := { db1 with ledger := e :: db1.ledger, next_id := db1.next_id + 1 }
    let res := execute_withdrawal db2 order user
    if res.success then (db2, "APPROVED_EXECUTED", some res, none, some now)
    else (db2, "APPROVED_FAILED", some res,
          some (res.error.getD "Withdrawal execution failed"), some now)

/-- The kind dispatch of _process_approval (lines 260 to 377): returns the
mutated store, the final status, the execution result, the execution error
and the executed_at timestamp.  An order of any other kind runs no side
effect and keeps the default final status APPROVED_EXECUTED. -/
def runStrategy (db : DB) (order : Order) (user : User) (amount bonus_amount : ℤ)
    (now : Nat) : DB × String × Option ExecResult × Option String × Option Nat :=
  if order.order_type = "wallet_topup" ∨ order.order_type = "deposit" then
    creditStrategy db order user amount bonus_amount now
  else if order.order_type = "game_load" then
    gameLoadStrategy db order user now
  else if order.order_type = "withdrawal" then
    withdrawalStrategy db order user amount now
  else
    (db, "APPROVED_EXECUTED", none, none, none)

/-- The final status update of _process_approval (lines 379 to 402) and
the post-transaction event emission and return value (lines 404 to 520). -/
def finishApproval (db : DB) (order : Order) (user : User) (atype : ActorType)
    (actor_id : String) (amount bonus_amount : ℤ) (amount_adjusted : Bool)
    (final_status : String) (execution_result : Option ExecResult)
    (execution_error : Option String) (executed_at : Option Nat) (now : Nat) :
    DB × ApprovalResult :=
  let db1 := updateOrder db order.order_id (fun o =>
    { o with status := final_status,
             approved_by := some actor_id,
             approved_by_type := some atype.str,
             approved_by_id := some actor_id,
             approved_at := some now,
             amount := amount,
             total_amount := amount + bonus_amount,
             amount_adjusted := amount_adjusted,
             adjusted_by := if amount_adjusted then some actor_id else none,
             adjusted_at := if amount_adjusted then some now else none,
             executed_at := executed_at,
             execution_result := execution_result,
             execution_error := execution_error })
  if final_status = "APPROVED_FAILED" then
    (db1, mkFail ("Execution failed: " ++ execution_error.getD ""))
  else
    let etype :=
      if order.order_type = "wallet_topup" then "WALLET_TOPUP_APPROVED"
      else if order.order_type = "withdrawal" then "WITHDRAW_APPROVED"
      else "ORDER_APPROVED"
    let db2 := emit db1
      { etype := etype, reference_id := order.order_id, reference_type := "order",
        user_id := user.user_id, amount := some amount, old_amount := none,
        new_amount := none, requires_action := false }
    let db3 :=
      if amount_adjusted then
        emit db2
          { etype := "ORDER_AMOUNT_ADJUSTED", reference_id := order.order_id,
            reference_type := "order", user_id := user.user_id, amount := some amount,
            old_amount := some order.amount, new_amount := some amount,
            requires_action := false }
      else db2
    let db4 :=
      match execution_result with
      | some r =>
        if r.success then
          if order.order_type = "game_load" then
            emit db3
              { etype := "GAME_LOAD_SUCCESS", reference_id := order.order_id,
                reference_type := "order", user_id := user.user_id,
                amount := some amount, old_amount := none, new_amount := none,
                requires_action := false }
          else if order.order_type = "withdrawal" then
            emit db3
              { etype := "WITHDRAW_EXECUTED", reference_id := order.order_id,
                reference_type := "order", user_id := user.user_id,
                amount := some amount, old_amount := none, new_amount := none,
                requires_action := false }
          else if order.order_type = "wallet_topup" ∨ order.order_type = "deposit" then
            emit db3
              { etype := "WALLET_TOPUP_APPROVED", reference_id := order.order_id,
                reference_type := "order", user_id := user.user_id,
                amount := some amount, old_amount := none, new_amount := none,
                requires_action := false }
          else db3
        else db3
      | none => db3
    (db4, { success := true, message := "Order approved and executed successfully",
            already_processed := false })

/-- _process_approval: compute the effective amount, increment the
execution-attempt counter, dispatch on the order kind and finish with the
terminal status write and event emission. -/
def _process_approval (db : DB) (order : Order) (user : User) (atype : ActorType)
    (actor_id : String) (final_amount : Option ℤ) (now : Nat) : DB × ApprovalResult :=
  let amount := final_amount.getD order.amount
  let bonus_amount := order.bonus_amount
  let amount_adjusted :=
    match final_amount with
    | some f => decide (f ≠ order.amount)
    | none => false
  let db1 := updateOrder db order.order_id (fun o =>
    { o with execution_attempts := o.execution_attempts + 1 })
  let out := runStrategy db1 order user amount bonus_amount now
  finishApproval out.1 order user atype actor_id amount bonus_amount amount_adjusted
    out.2.1 out.2.2.1 out.2.2.2.1 out.2.2.2.2 now

/-- _process_rejection: a single terminal write to REJECTED plus a
rejection event. -/
def _process_rejection (db : DB) (order : Order) (user : User) (atype : ActorType)
    (actor_id : String) (rejection_reason : Option String) (now : Nat) :
    DB × ApprovalResult :=
  let reason := rejection_reason.getD "Rejected by reviewer"
  let db1 := updateOrder db order.order_id (fun o =>
    { o with status := "REJECTED", rejection_reason := some reason,
             approved_by := some actor_id, approved_by_type := some atype.str,
             approved_by_id := some actor_id, approved_at := some now })
  let etype :=
    if order.order_type = "wallet_topup" then "WALLET_TOPUP_REJECTED"
    else if order.order_type = "withdrawal" then "WITHDRAW_REJECTED"
    else "ORDER_REJECTED"
  let db2 := emit db1
    { etype := etype, reference_id := order.order_id, reference_type := "order",
      user_id := user.user_id, amount := some order.amount, old_amount := none,
      new_amount := none, requires_action := false }
  (db2, { success := true, message := "Order rejected", already_processed := false })

/-- approve_or_reject_order: bot permission validation, order lookup,
idempotency check, user lookup, then dispatch on the action string; any
action other than approve goes to the rejection path. -/
def approve_or_reject_order (db : DB) (order_id : String) (action : String)
    (actor_type : ActorType) (actor_id : String) (final_amount : Option ℤ)
    (rejection_reason : Option String) (bot_id : Option String) (now : Nat) :
    DB × ApprovalResult :=
  match botAuthFailure db actor_type bot_id Bot.can_approve_payments
      "Bot does not have approval permissions" with
  | some r => (db, r)
  | none =>
    match fetchOrder db order_id with
    | none => (db, mkFail "Order not found")
    | some order =>
      if order.status ∈ pendingStatuses then
        match fetchUser db order.user_id with
        | none => (db, mkFail "User not found")
        | some user =>
          if action = "approve" then
            _process_approval db order user actor_type actor_id final_amount now
          else
            _process_rejection db order user actor_type actor_id rejection_reason now
      else
        (db, { success := false, message := "Order already " ++ order.status,
               already_processed := true })

/-- approve_or_reject_wallet_load of the backend variant: the idempotency
check accepts only the literal status pending, the approve path credits
the caller-supplied amount without any balance check and writes the
lowercase status approved, the reject path writes the lowercase status
rejected. -/
def approve_or_reject_wallet_load (db : DB) (request_id : String) (action : String)
    (actor_type : ActorType) (actor_id : String) (final_amount : Option ℤ)
    (rejection_reason : Option String) (bot_id : Option String) (now : Nat) :
    DB × ApprovalResult :=
  match botAuthFailure db actor_type bot_id Bot.can_approve_wallet_loads
      "Bot does not have wallet load approval permissions" with
  | some r => (db, r)
  | none =>
    match fetchLoadRequest db request_id with
    | none => (db, mkFail "Request not found")
    | some (req, reqUser) =>
      if req.status = "pending" then
        let amount := final_amount.getD req.amount
        let amount_adjusted :=
          match final_amount with
          | some f => decide (f ≠ req.amount)
          | none => false
        if action = "approve" then
          let current_balance := reqUser.real_balance
          let new_balance := current_balance + amount
          let db1 := updateUser db req.user_id (fun u => { u with real_balance := new_balance })
          let db2 := updateLoadRequest db1 request_id (fun r =>
            { r with status := "approved", amount := amount,
                     reviewed_by := some actor_id, reviewed_at := some now })
          let e : LedgerEntry :=
            { ledger_id := freshId db2.next_id, user_id := req.user_id,
              transaction_type := "credit", amount := amount,
              balance_before := current_balance, balance_after := new_balance,
              reference_type := "wallet_load", reference_id := request_id,
              description := "Wallet load via " ++ req.payment_method }
          let db3 := { db2 with ledger := e :: db2.ledger, next_id := db2.next_id + 1 }
          let db4 := emit db3
            { etype := "WALLET_LOAD_APPROVED", reference_id := request_id,
              reference_type := "wallet_load", user_id := req.user_id,
              amount := some amount, old_amount := none, new_amount := none,
              requires_action := false }
          let _ := amount_adjusted
          (db4, { success := true, message := "Wallet load approved",
                  already_processed := false })
        else
          let reason := rejection_reason.getD "Rejected by reviewer"
          let db1 := updateLoadRequest db request_id (fun r =>
            { r with status := "rejected", rejection_reason := some reason,
                     reviewed_by := some actor_id, reviewed_at := some now })
          let db2 := emit db1
            { etype := "WALLET_LOAD_REJECTED", reference_id := request_id,
              reference_type := "wallet_load", user_id := req.user_id,
              amount := some req.amount, old_amount := none, new_amount := none,
              requires_action := false }
          (db2, { success := true, message := "Wallet load rejected",
                  already_processed := false })
      else
        (db, { success := false, message := "Request already " ++ req.status,
               already_processed := true })

end Backend

namespace AI9

/-- Statuses accepted by the idempotency check of approve_or_reject_order
in the AI9-main variant. -/
def valid_pending_states : List String :=
  ["PENDING_REVIEW", "pending_review", "pending", "initiated", "awaiting_payment_proof"]

/-- Statuses accepted by the idempotency check of the wallet-load flow in
the AI9-main variant. -/
def wallet_pending_states : List String :=
  ["PENDING_REVIEW", "pending_review", "pending"]

/-- The transaction body of _process_approval (lines 149 to 247): either
raises (modelled as an error, discarding all writes) or returns the
mutated store together with the execution-success flag and the textual
execution result.  The game_load branch performs no side effect at all and
reports success; the withdrawal branch raises on insufficient balance
before any write. -/
def txnBody (db : DB) (order : Order) (user : User) (amount bonus_amount : ℤ)
    (amount_adjusted : Bool) (actor_id : String) (now : Nat) :
    Except String (DB × Bool × Option String) :=
  let step : Except String (DB × Bool × Option String) :=
    if order.order_type = "wallet_topup" ∨ order.order_type = "deposit" then
      let current_balance := user.real_balance
      let new_balance := current_balance + amount
      let db1 := updateUser db user.user_id (fun u =>
        { u with real_balance := new_balance, bonus_balance := u.bonus_balance + bonus_amount,
                 deposit_count := u.deposit_count + 1,
                 total_deposited := u.total_deposited + amount })
      let e : LedgerEntry :=
        { ledger_id := freshId db1.next_id, user_id := user.user_id,
          transaction_type := "credit", amount := amount, balance_before := current_balance,
          balance_after := new_balance, reference_type := "order",
          reference_id := order.order_id,
          description := "Wallet top-up via " ++ order.payment_method }
      let db2 := { db1 with ledger := e :: db1.ledger, next_id := db1.next_id + 1 }
      .ok (db2, true, some "Wallet credited")
    else if order.order_type = "game_load" then
      .ok (db, true, some "Game load approved - pending execution via game_routes")
    else if order.order_type = "withdrawal" then
      let current_balance := user.real_balance
      if current_balance < amount then
        .error ("Insufficient balance: has " ++ toString current_balance ++
          ", needs " ++ toString amount)
      else
        let new_balance := current_balance - amount
        let db1 := updateUser db user.user_id (fun u =>
          { u with real_balance := new_balance, total_withdrawn := u.total_withdrawn + amount })
        let e : LedgerEntry :=
          { ledger_id := freshId db1.next_id, user_id := user.user_id,
            transaction_type := "debit", amount := amount, balance_before := current_balance,
            balance_after := new_balance, reference_type := "withdrawal",
            reference_id := order.order_id,
            description := "Withdrawal to " ++ order.payment_method }
        let db2 := { db1 with ledger := e :: db1.ledger, next_id := db1.next_id + 1 }
        .ok (db2, true, some "Withdrawal processed")
    else
      .ok (db, false, none)
  match step with
  | .error e => .error e
  | .ok (db1, execution_success, exec_msg) =>
    let final_status := if execution_success then "APPROVED_EXECUTED" else "APPROVED_FAILED"
    let db2 := updateOrder db1 order.order_id (fun o =>
      { o with status := final_status,
               approved_by := some actor_id,
               approved_at := some now,
               executed_at := if execution_success then some now else none,
               execution_result := exec_msg.map (fun m =>
                 { emptyExec with success := execution_success, message := some m }),
               amount := amount,
               total_amount := amount + bonus_amount,
               amount_adjusted := amount_adjusted,
               adjusted_by := if amount_adjusted then some actor_id else none,
               adjusted_at := if amount_adjusted then some now else none })
    .ok (db2, execution_success, exec_msg)

/-- _process_approval of the AI9-main variant: run the transaction; when
it raises, the whole unit is discarded and the order is marked
APPROVED_FAILED by a separate follow-up write; when it commits, emit the
approval events and return success. -/
def _process_approval (db : DB) (order : Order) (user : User) (_atype : ActorType)
    (actor_id : String) (final_amount : Option ℤ) (now : Nat) : DB × ApprovalResult :=
  let amount := final_amount.getD order.amount
  let bonus_amount := order.bonus_amount
  let amount_adjusted :=
    match final_amount with
    | some f => decide (f ≠ order.amount)
    | none => false
  match txnBody db order user amount bonus_amount amount_adjusted actor_id now with
  | .error e =>
    let db1 := updateOrder db order.order_id (fun o =>
      { o with status := "APPROVED_FAILED",
               approved_by := some actor_id,
               approved_at := some now,
               execution_result := some
                 { emptyExec with success := false,
                                  message := some ("Execution failed: " ++ e) } })
    (db1, mkFail ("Order approved but execution failed: " ++ e))
  | .ok (db1, execution_success, _exec_msg) =>
    let final_status := if execution_success then "APPROVED_EXECUTED" else "APPROVED_FAILED"
    let etype :=
      if order.order_type = "wallet_topup" then "WALLET_TOPUP_APPROVED"
      else if order.order_type = "withdrawal" then "WITHDRAW_APPROVED"
      else "ORDER_APPROVED"
    let db2 := emit db1
      { etype := etype, reference_id := order.order_id, reference_type := "order",
        user_id := user.user_id, amount := some amount, old_amount := none,
        new_amount := none, requires_action := false }
    let db3 :=
      if amount_adjusted then
        emit db2
          { etype := "ORDER_AMOUNT_ADJUSTED", reference_id := order.order_id,
            reference_type := "order", user_id := user.user_id, amount := some amount,
            old_amount := some order.amount, new_amount := some amount,
            requires_action := false }
      else db2
    (db3, { success := true,
            message := "Order approved and executed successfully (" ++ final_status ++ ")",
            already_processed := false })

/-- _process_rejection of the AI9-main variant. -/
def _process_rejection (db : DB) (order : Order) (user : User) (atype : ActorType)
    (actor_id : String) (rejection_reason : Option String) (now : Nat) :
    DB × ApprovalResult :=
  let reason := rejection_reason.getD "Rejected by reviewer"
  let db1 := updateOrder db order.order_id (fun o =>
    { o with status := "REJECTED", rejection_reason := some reason,
             approved_by := some actor_id, approved_at := some now })
  let etype :=
    if order.order_type = "wallet_topup" then "WALLET_TOPUP_REJECTED"
    else if order.order_type = "withdrawal" then "WITHDRAW_REJECTED"
    else "ORDER_REJECTED"
  let db2 := emit db1
    { etype := etype, reference_id := order.order_id, reference_type := "order",
      user_id := user.user_id, amount := some order.amount, old_amount := none,
      new_amount := none, requires_action := false }
  let _ := atype
  (db2, { success := true, message := "Order rejected", already_processed := false })

/-- approve_or_reject_order of the AI9-main variant. -/
def approve_or_reject_order (db : DB) (order_id : String) (action : String)
    (actor_type : ActorType) (actor_id : String) (final_amount : Option ℤ)
    (rejection_reason : Option String) (bot_id : Option String) (now : Nat) :
    DB × ApprovalResult :=
  match botAuthFailure db actor_type bot_id Bot.can_approve_payments
      "Bot does not have approval permissions" with
  | some r => (db, r)
  | none =>
    match fetchOrder db order_id with
    | none => (db, mkFail "Order not found")
    | some order =>
      if order.status ∈ valid_pending_states then
        match fetchUser db order.user_id with
        | none => (db, mkFail "User not found")
        | some user =>
          if action = "approve" then
            _process_approval db order user actor_type actor_id final_amount now
          else
            _process_rejection db order user actor_type actor_id rejection_reason now
      else
        (db, { success := false, message := "Order already " ++ order.status,
               already_processed := true })

/-- approve_or_reject_wallet_load of the AI9-main variant: the approve
path credits the wallet and writes the canonical APPROVED_EXECUTED status
inside one transaction (which never raises in this model), the reject path
writes REJECTED. -/
def approve_or_reject_wallet_load (db : DB) (request_id : String) (action : String)
    (actor_type : ActorType) (actor_id : String) (final_amount : Option ℤ)
    (rejection_reason : Option String) (bot_id : Option String) (now : Nat) :
    DB × ApprovalResult :=
  match botAuthFailure db actor_type bot_id Bot.can_approve_wallet_loads
      "Bot does not have wallet load approval permissions" with
  | some r => (db, r)
  | none =>
    match fetchLoadRequest db request_id with
    | none => (db, mkFail "Request not found")
    | some (req, reqUser) =>
      if req.status ∈ wallet_pending_states then
        let amount := final_amount.getD req.amount
        let amount_adjusted :=
          match final_amount with
          | some f => decide (f ≠ req.amount)
          | none => false
        if action = "approve" then
          let current_balance := reqUser.real_balance
          let new_balance := current_balance + amount
          let db1 := updateUser db req.user_id (fun u => { u with real_balance := new_balance })
          let db2 := updateLoadRequest db1 request_id (fun r =>
            { r with status := "APPROVED_EXECUTED", amount := amount,
                     reviewed_by := some actor_id, reviewed_at := some now })
          let e : LedgerEntry :=
            { ledger_id := freshId db2.next_id, user_id := req.user_id,
              transaction_type := "credit", amount := amount,
              balance_before := current_balance, balance_after := new_balance,
              reference_type := "wallet_load", reference_id := request_id,
              description := "Wallet load via " ++ req.payment_method }
          let db3 := { db2 with ledger := e :: db2.ledger, next_id := db2.next_id + 1 }
          let db4 := emit db3
            { etype := "WALLET_LOAD_APPROVED", reference_id := request_id,
              reference_type := "wallet_load", user_id := req.user_id,
              amount := some amount, old_amount := none, new_amount := none,
              requires_action := false }
          let _ := amount_adjusted
          (db4, { success := true,
                  message := "Wallet load approved and executed (APPROVED_EXECUTED)",
                  already_processed := false })
        else
          let reason := rejection_reason.getD "Rejected by reviewer"
          let db1 := updateLoadRequest db request_id (fun r =>
            { r with status := "REJECTED", rejection_reason := some reason,
                     reviewed_by := some actor_id, reviewed_at := some now })
          let db2 := emit db1
            { etype := "WALLET_LOAD_REJECTED", reference_id := request_id,
              reference_type := "wallet_load", user_id := req.user_id,
              amount := some req.amount, old_amount := none, new_amount := none,
              requires_action := false }
          (db2, { success := true, message := "Wallet load rejected",
                  already_processed := false })
      else
        (db, { success := false, message := "Request already " ++ req.status,
               already_processed := true })

end AI9

/-- All rational amounts stored inside an execution-result payload. -/
def execAmounts : Option ExecResult → List ℤ
  | none => []
  | some r => r.credited.toList ++ r.wallet_balance.toList ++
      r.payout_amount.toList ++ r.void_amount.toList

/-- All rational amounts stored on an order row, covering every audit
field capable of holding a monetary value. -/
def orderAmounts (o : Order) : List ℤ :=
  [o.amount, o.bonus_amount, o.total_amount] ++ o.payout_amount.toList ++
    o.void_amount.toList ++ execAmounts o.execution_result

/-- Status of the order with the given id, if present. -/
def orderStatus (db : DB) (oid : String) : Option String :=
  (fetchOrder db oid).map Order.status

/-- Status of the wallet-load request with the given id, if present. -/
def requestStatus (db : DB) (rid : String) : Option String :=
  (db.wallet_load_requests.find? (fun r => r.request_id == rid)).map WalletLoadRequest.status

/-- Fixtures used by the concrete counterexamples and witnesses. -/
def baseUser : User :=
  { user_id := "u1", username := "bob", display_name := "Bob", real_balance := 0,
    bonus_balance := 0, deposit_count := 0, total_deposited := 0, total_withdrawn := 0 }

def baseOrder : Order :=
  { order_id := "o1", user_id := "u1", order_type := "wallet_topup", amount := 500,
    bonus_amount := 0, total_amount := 500, payout_amount := none, void_amount := none,
    game_name := "bingo", payment_method := "gcash", status := "PENDING_REVIEW",
    execution_attempts := 0, approved_by := none, approved_by_type := none,
    approved_by_id := none, approved_at := none, rejection_reason := none,
    amount_adjusted := false, adjusted_by := none, adjusted_at := none,
    executed_at := none, execution_result := none, execution_error := none }

def baseReq : WalletLoadRequest :=
  { request_id := "r1", user_id := "u1", amount := 500, payment_method := "gcash",
    status := "pending", reviewed_by := none, reviewed_at := none, rejection_reason := none }

def baseGame : Game :=
  { game_id := "g1", game_name := "bingo", display_name := "Bingo" }

def emptyDB : DB :=
  { orders := [], users := [], wallet_load_requests := [], ledger := [],
    game_loads := [], games := [], bots := [], events := [], next_id := 0 }

theorem find?_update {α : Type} (l : List α) (q : α → Bool) (f : α → α)
    (hf : ∀ a, q (f a) = q a) :
    (l.map (fun a => if q a then f a else a)).find? q = (l.find? q).map f := by
  induction l with
  | nil => rfl
  | cons a t ih =>
    by_cases h : q a
    · simp [List.find?_cons_of_pos, h, hf a]
    · simp [List.find?_cons_of_neg, h, ih, hf a]

theorem fetchOrder_updateOrder (db : DB) (oid : String) (f : Order → Order)
    (hf : ∀ o, (f o).order_id = o.order_id) :
    fetchOrder (updateOrder db oid f) oid = (fetchOrder db oid).map f := by
  unfold fetchOrder updateOrder
  exact find?_update _ _ _ (fun o => by simp [hf o])

theorem findReq_updateLoadRequest (db : DB) (rid : String)
    (f : WalletLoadRequest → WalletLoadRequest)
    (hf : ∀ r, (f r).request_id = r.request_id) :
    (updateLoadRequest db rid f).wallet_load_requests.find? (fun r => r.request_id == rid) =
      (db.wallet_load_requests.find? (fun r => r.request_id == rid)).map f := by
  unfold updateLoadRequest
  exact find?_update _ _ _ (fun r => by simp [hf r])

theorem emit_orders (db : DB) (e : Event) : (emit db e).orders = db.orders := rfl

theorem emit_bots (db : DB) (e : Event) : (emit db e).bots = db.bots := rfl

theorem updateUser_orders (db : DB) (uid : String) (f : User → User) :
    (updateUser db uid f).orders = db.orders := rfl

theorem updateUser_bots (db : DB) (uid : String) (f : User → User) :
    (updateUser db uid f).bots = db.bots := rfl

theorem execute_game_load_orders (db : DB) (order : Order) (user : User) :
    (Backend.execute_game_load db order user).1.orders = db.orders := by
  unfold Backend.execute_game_load
  dsimp only
  repeat' split
  all_goals rfl

theorem execute_game_load_bots (db : DB) (order : Order) (user : User) :
    (Backend.execute_game_load db order user).1.bots = db.bots := by
  unfold Backend.execute_game_load
  dsimp only
  repeat' split
  all_goals rfl

theorem runStrategy_orders (db : DB) (order : Order) (user : User) (a b : ℤ) (n : Nat) :
    (Backend.runStrategy db order user a b n).1.orders = db.orders := by
  unfold Backend.runStrategy Backend.creditStrategy Backend.gameLoadStrategy
    Backend.withdrawalStrategy
  dsimp only
  repeat' split
  all_goals simp [emit, updateUser, execute_game_load_orders]

theorem runStrategy_bots (db : DB) (order : Order) (user : User) (a b : ℤ) (n : Nat) :
    (Backend.runStrategy db order user a b n).1.bots = db.bots := by
  unfold Backend.runStrategy Backend.creditStrategy Backend.gameLoadStrategy
    Backend.withdrawalStrategy
  dsimp only
  repeat' split
  all_goals simp [emit, updateUser, execute_game_load_bots]

theorem runStrategy_final_status (db : DB) (order : Order) (user : User) (a b : ℤ) (n : Nat) :
    (Backend.runStrategy db order user a b n).2.1 = "APPROVED_EXECUTED" ∨
      (Backend.runStrategy db order user a b n).2.1 = "APPROVED_FAILED" := by
  unfold Backend.runStrategy Backend.creditStrategy Backend.gameLoadStrategy
    Backend.withdrawalStrategy
  dsimp only
  repeat' split
  all_goals simp

theorem fetchOrder_eq_of_orders (db1 db2 : DB) (oid : String) (h : db1.orders = db2.orders) :
    fetchOrder db1 oid = fetchOrder db2 oid := by
  unfold fetchOrder
  rw [h]

theorem botAuthFailure_eq_of_bots (db1 db2 : DB) (atype : ActorType) (bid : Option String)
    (cap : Bot → Bool) (msg : String) (h : db1.bots = db2.bots) :
    botAuthFailure db1 atype bid cap msg = botAuthFailure db2 atype bid cap msg := by
  unfold botAuthFailure fetchBot
  rw [h]

theorem finishApproval_bots (db : DB) (order : Order) (user : User) (atype : ActorType)
    (aid : String) (amt bon : ℤ) (adj : Bool) (fs : String) (er : Option ExecResult)
    (ee : Option String) (ea : Option Nat) (now : Nat) :
    (Backend.finishApproval db order user atype aid amt bon adj fs er ee ea now).1.bots =
      db.bots := by
  unfold Backend.finishApproval
  dsimp only
  repeat' split
  all_goals rfl

theorem fetchOrder_emit (db : DB) (e : Event) (oid : String) :
    fetchOrder (emit db e) oid = fetchOrder db oid := rfl

theorem orderStatus_updateOrder (db : DB) (oid : String) (f : Order → Order)
    (hid : ∀ o, (f o).order_id = o.order_id) (c : String) (hst : ∀ o, (f o).status = c) :
    Option.map Order.status (fetchOrder (updateOrder db oid f) oid) =
      (fetchOrder db oid).map (fun _ => c) := by
  rw [fetchOrder_updateOrder db oid f hid]
  cases fetchOrder db oid with
  | none => rfl
  | some o => simp [hst o]

theorem finishApproval_status (db : DB) (order : Order) (user : User) (atype : ActorType)
    (aid : String) (amt bon : ℤ) (adj : Bool) (fs : String) (er : Option ExecResult)
    (ee : Option String) (ea : Option Nat) (now : Nat) :
    orderStatus (Backend.finishApproval db order user atype aid amt bon adj fs er ee ea now).1
        order.order_id =
      (fetchOrder db order.order_id).map (fun _ => fs) := by
  unfold Backend.finishApproval orderStatus
  dsimp only
  repeat' split
  all_goals simp only [fetchOrder_emit]
  all_goals refine orderStatus_updateOrder _ _ _ ?_ _ ?_ <;> intro o <;> rfl

theorem finishApproval_success (db : DB) (order : Order) (user : User) (atype : ActorType)
    (aid : String) (amt bon : ℤ) (adj : Bool) (fs : String) (er : Option ExecResult)
    (ee : Option String) (ea : Option Nat) (now : Nat) :
    (Backend.finishApproval db order user atype aid amt bon adj fs er ee ea now).2.success =
      true ↔ fs ≠ "APPROVED_FAILED" := by
  unfold Backend.finishApproval
  dsimp only
  repeat' split
  all_goals simp_all [mkFail]

theorem fetchOrder_attempts (db : DB) (oid : String) :
    fetchOrder (updateOrder db oid
        (fun o => { o with execution_attempts := o.execution_attempts + 1 })) oid =
      (fetchOrder db oid).map
        (fun o => { o with execution_attempts := o.execution_attempts + 1 }) :=
  fetchOrder_updateOrder _ _ _ (fun o => rfl)

theorem process_approval_bots (db : DB) (order : Order) (user : User) (atype : ActorType)
    (aid : String) (fa : Option ℤ) (now : Nat) :
    (Backend._process_approval db order user atype aid fa now).1.bots = db.bots := by
  unfold Backend._process_approval
  dsimp only
  rw [finishApproval_bots, runStrategy_bots]
  rfl

theorem process_approval_success_status (db : DB) (order : Order) (user : User)
    (atype : ActorType) (aid : String) (fa : Option ℤ) (now : Nat)
    (h : (Backend._process_approval db order user atype aid fa now).2.success = true)
    (ho : (fetchOrder db order.order_id).isSome = true) :
    orderStatus (Backend._process_approval db order user atype aid fa now).1 order.order_id =
      some "APPROVED_EXECUTED" := by
  unfold Backend._process_approval at h ⊢
  dsimp only at h ⊢
  rw [finishApproval_success] at h
  rcases runStrategy_final_status (updateOrder db order.order_id
    (fun o => { o with execution_attempts := o.execution_attempts + 1 })) order user
    (fa.getD order.amount) order.bonus_amount now with hfs | hfs
  · rw [finishApproval_status, hfs,
      fetchOrder_eq_of_orders _ (updateOrder db order.order_id
        (fun o => { o with execution_attempts := o.execution_attempts + 1 }))
        order.order_id (runStrategy_orders _ _ _ _ _ _),
      fetchOrder_attempts]
    rcases hopt : fetchOrder db order.order_id with _ | o
    · rw [hopt] at ho; simp at ho
    · simp
  · exact absurd hfs h

theorem process_rejection_bots (db : DB) (order : Order) (user : User) (atype : ActorType)
    (aid : String) (rr : Option String) (now : Nat) :
    (Backend._process_rejection db order user atype aid rr now).1.bots = db.bots := by
  unfold Backend._process_rejection
  dsimp only
  rfl

theorem process_rejection_status (db : DB) (order : Order) (user : User) (atype : ActorType)
    (aid : String) (rr : Option String) (now : Nat) :
    orderStatus (Backend._process_rejection db order user atype aid rr now).1 order.order_id =
      (fetchOrder db order.order_id).map (fun _ => "REJECTED") := by
  unfold Backend._process_rejection orderStatus
  dsimp only
  simp only [fetchOrder_emit]
  refine orderStatus_updateOrder _ _ _ ?_ _ ?_ <;> intro o <;> rfl

theorem botAuthFailure_of_some (db : DB) (atype : ActorType) (bid : Option String)
    (cap : Bot → Bool) (msg : String) (r : ApprovalResult)
    (h : botAuthFailure db atype bid cap msg = some r) : r.success = false := by
  unfold botAuthFailure at h
  repeat' split at h
  all_goals try (cases h)
  all_goals rfl

/-- C2: calling decide(approve) twice sequentially on the same order id
yields success exactly once: when the first call succeeds, the second call
returns success false with already_processed true and the current terminal
status in its message, and leaves the store untouched, so no additional
ledger entry and no balance change are produced. -/
theorem c2_decide_approve_idempotent (db : DB) (oid : String) (atype : ActorType)
    (aid : String) (fa : Option ℤ) (rr : Option String) (bid : Option String)
    (now1 now2 : Nat)
    (h : (Backend.approve_or_reject_order db oid "approve" atype aid fa rr bid now1).2.success =
      true) :
    Backend.approve_or_reject_order
        (Backend.approve_or_reject_order db oid "approve" atype aid fa rr bid now1).1
        oid "approve" atype aid fa rr bid now2 =
      ((Backend.approve_or_reject_order db oid "approve" atype aid fa rr bid now1).1,
       { success := false, message := "Order already APPROVED_EXECUTED",
         already_processed := true }) := by
  rcases hba : botAuthFailure db atype bid Bot.can_approve_payments
      "Bot does not have approval permissions" with _ | r
  · rcases hfo : fetchOrder db oid with _ | order
    · have hfalse : (Backend.approve_or_reject_order db oid "approve" atype aid fa rr bid
          now1).2.success = false := by
        unfold Backend.approve_or_reject_order
        rw [hba]
        dsimp only
        rw [hfo]
        rfl
      rw [h] at hfalse
      exact absurd hfalse (by decide)
    · by_cases hg : order.status ∈ Backend.pendingStatuses
      · rcases hfu : fetchUser db order.user_id with _ | user
        · have hfalse : (Backend.approve_or_reject_order db oid "approve" atype aid fa rr bid
              now1).2.success = false := by
            unfold Backend.approve_or_reject_order
            rw [hba]
            dsimp only
            rw [hfo]
            dsimp only
            rw [if_pos hg, hfu]
            rfl
          rw [h] at hfalse
          exact absurd hfalse (by decide)
        · have hfirst : Backend.approve_or_reject_order db oid "approve" atype aid fa rr bid
              now1 = Backend._process_approval db order user atype aid fa now1 := by
            unfold Backend.approve_or_reject_order
            rw [hba]
            dsimp only
            rw [hfo]
            dsimp only
            rw [if_pos hg, hfu]
            dsimp only
            rw [if_pos rfl]
          rw [hfirst] at h ⊢
          have hoid : order.order_id = oid := by
            have := List.find?_some hfo
            simpa using this
          have hsome : (fetchOrder db order.order_id).isSome = true := by
            rw [hoid, hfo]
            rfl
          have hstat := process_approval_success_status db order user atype aid fa now1 h hsome
          have hbots := process_approval_bots db order user atype aid fa now1
          unfold orderStatus at hstat
          rcases ho2 : fetchOrder (Backend._process_approval db order user atype aid fa
              now1).1 order.order_id with _ | o2
          · rw [ho2] at hstat
            exact absurd hstat (by simp)
          · rw [ho2] at hstat
            have hs2 : o2.status = "APPROVED_EXECUTED" := by simpa using hstat
            rw [hoid] at ho2
            unfold Backend.approve_or_reject_order
            rw [botAuthFailure_eq_of_bots _ db atype bid Bot.can_approve_payments
              "Bot does not have approval permissions" hbots, hba]
            dsimp only
            rw [ho2]
            dsimp only
            rw [if_neg (by rw [hs2]; decide), hs2]
            rfl
      · have hfalse : (Backend.approve_or_reject_order db oid "approve" atype aid fa rr bid
            now1).2.success = false := by
          unfold Backend.approve_or_reject_order
          rw [hba]
          dsimp only
          rw [hfo]
          dsimp only
          rw [if_neg hg]
        rw [h] at hfalse
        exact absurd hfalse (by decide)
  · have hfalse : (Backend.approve_or_reject_order db oid "approve" atype aid fa rr bid
        now1).2.success = false := by
      unfold Backend.approve_or_reject_order
      rw [hba]
      exact botAuthFailure_of_some db atype bid _ _ r hba
    rw [h] at hfalse
    exact absurd hfalse (by decide)

theorem orderStatus_emit (db : DB) (e : Event) (oid : String) :
    orderStatus (emit db e) oid = orderStatus db oid := rfl

theorem map_const_of_isSome {α : Type} (m : Option α) (c : String) (h : m.isSome = true) :
    m.map (fun _ => c) = some c := by
  cases m with
  | none => simp at h
  | some a => rfl

theorem orderStatus_updateOrder_of_orders (db0 db : DB) (oid : String) (f : Order → Order)
    (hdb : db0.orders = db.orders)
    (hid : ∀ o, (f o).order_id = o.order_id) (c : String) (hst : ∀ o, (f o).status = c)
    (ho : (fetchOrder db oid).isSome = true) :
    orderStatus (updateOrder db0 oid f) oid = some c := by
  unfold orderStatus
  rw [fetchOrder_updateOrder db0 oid f hid, fetchOrder_eq_of_orders db0 db oid hdb]
  rcases hx : fetchOrder db oid with _ | o
  · rw [hx] at ho
    simp at ho
  · simp [hst o]

theorem botAuthFailure_none_bid (db : DB) (atype : ActorType) (cap : Bot → Bool)
    (msg : String) : botAuthFailure db atype none cap msg = none := by
  unfold botAuthFailure
  rw [if_neg]
  rintro ⟨-, hx⟩
  exact absurd hx (by decide)

theorem process_approval_status_eq (db : DB) (order : Order) (user : User)
    (atype : ActorType) (aid : String) (fa : Option ℤ) (now : Nat) :
    orderStatus (Backend._process_approval db order user atype aid fa now).1 order.order_id =
      (fetchOrder db order.order_id).map (fun _ =>
        (Backend.runStrategy (updateOrder db order.order_id
          (fun o => { o with execution_attempts := o.execution_attempts + 1 }))
          order user (fa.getD order.amount) order.bonus_amount now).2.1) := by
  unfold Backend._process_approval
  dsimp only
  rw [finishApproval_status, fetchOrder_eq_of_orders _ (updateOrder db order.order_id
      (fun o => { o with execution_attempts := o.execution_attempts + 1 })) order.order_id
      (runStrategy_orders _ _ _ _ _ _), fetchOrder_attempts, Option.map_map]
  rfl

theorem process_approval_terminal (db : DB) (order : Order) (user : User)
    (atype : ActorType) (aid : String) (fa : Option ℤ) (now : Nat)
    (ho : (fetchOrder db order.order_id).isSome = true) :
    orderStatus (Backend._process_approval db order user atype aid fa now).1 order.order_id =
        some "APPROVED_EXECUTED" ∨
      orderStatus (Backend._process_approval db order user atype aid fa now).1 order.order_id =
        some "APPROVED_FAILED" := by
  rw [process_approval_status_eq]
  rcases runStrategy_final_status (updateOrder db order.order_id
      (fun o => { o with execution_attempts := o.execution_attempts + 1 })) order user
      (fa.getD order.amount) order.bonus_amount now with hfs | hfs
  · left
    rw [hfs]
    exact map_const_of_isSome _ _ ho
  · right
    rw [hfs]
    exact map_const_of_isSome _ _ ho

theorem AI9_process_approval_terminal (db : DB) (order : Order) (user : User)
    (atype : ActorType) (aid : String) (fa : Option ℤ) (now : Nat)
    (ho : (fetchOrder db order.order_id).isSome = true) :
    orderStatus (AI9._process_approval db order user atype aid fa now).1 order.order_id =
        some "APPROVED_EXECUTED" ∨
      orderStatus (AI9._process_approval db order user atype aid fa now).1 order.order_id =
        some "APPROVED_FAILED" := by
  unfold AI9._process_approval AI9.txnBody
  dsimp only
  by_cases h1 : order.order_type = "wallet_topup" ∨ order.order_type = "deposit"
  · rw [if_pos h1]
    dsimp only
    left
    repeat' split
    all_goals try (exact absurd rfl (by assumption))
    all_goals try (exact absurd (show false = true by assumption) (by decide))
    all_goals simp only [orderStatus_emit]
    all_goals refine orderStatus_updateOrder_of_orders _ db _ _ rfl ?_ _ ?_ ho
    all_goals intro o
    all_goals rfl
  · rw [if_neg h1]
    by_cases h2 : order.order_type = "game_load"
    · rw [if_pos h2]
      dsimp only
      left
      repeat' split
      all_goals try (exact absurd rfl (by assumption))
      all_goals try (exact absurd (show false = true by assumption) (by decide))
      all_goals simp only [orderStatus_emit]
      all_goals refine orderStatus_updateOrder_of_orders _ db _ _ rfl ?_ _ ?_ ho
      all_goals intro o
      all_goals rfl
    · rw [if_neg h2]
      by_cases h3 : order.order_type = "withdrawal"
      · rw [if_pos h3]
        by_cases hb : user.real_balance < fa.getD order.amount
        · rw [if_pos hb]
          dsimp only
          right
          repeat' split
          all_goals try (exact absurd rfl (by assumption))
          all_goals try (exact absurd (show false = true by assumption) (by decide))
          all_goals try (simp only [orderStatus_emit])
          all_goals refine orderStatus_updateOrder_of_orders _ db _ _ rfl ?_ _ ?_ ho
          all_goals intro o
          all_goals rfl
        · rw [if_neg hb]
          dsimp only
          left
          repeat' split
          all_goals try (exact absurd rfl (by assumption))
          all_goals try (exact absurd (show false = true by assumption) (by decide))
          all_goals try (simp only [orderStatus_emit])
          all_goals refine orderStatus_updateOrder_of_orders _ db _ _ rfl ?_ _ ?_ ho
          all_goals intro o
          all_goals rfl
      · rw [if_neg h3]
        dsimp only
        right
        repeat' split
        all_goals try (exact absurd rfl (by assumption))
        all_goals try (exact absurd (show false = true by assumption) (by decide))
        all_goals simp only [orderStatus_emit]
        all_goals refine orderStatus_updateOrder_of_orders _ db _ _ rfl ?_ _ ?_ ho
        all_goals intro o
        all_goals rfl

theorem finishApproval_ledger (db : DB) (order : Order) (user : User) (atype : ActorType)
    (aid : String) (amt bon : ℤ) (adj : Bool) (fs : String) (er : Option ExecResult)
    (ee : Option String) (ea : Option Nat) (now : Nat) :
    (Backend.finishApproval db order user atype aid amt bon adj fs er ee ea now).1.ledger =
      db.ledger := by
  unfold Backend.finishApproval
  dsimp only
  repeat' split
  all_goals rfl

theorem finishApproval_users (db : DB) (order : Order) (user : User) (atype : ActorType)
    (aid : String) (amt bon : ℤ) (adj : Bool) (fs : String) (er : Option ExecResult)
    (ee : Option String) (ea : Option Nat) (now : Nat) :
    (Backend.finishApproval db order user atype aid amt bon adj fs er ee ea now).1.users =
      db.users := by
  unfold Backend.finishApproval
  dsimp only
  repeat' split
  all_goals rfl

theorem runStrategy_credit (db : DB) (order : Order) (user : User) (amt bon : ℤ) (now : Nat)
    (h : order.order_type = "wallet_topup" ∨ order.order_type = "deposit") :
    Backend.runStrategy db order user amt bon now =
      Backend.creditStrategy db order user amt bon now := by
  unfold Backend.runStrategy
  rw [if_pos h]

theorem runStrategy_game (db : DB) (order : Order) (user : User) (amt bon : ℤ) (now : Nat)
    (h : order.order_type = "game_load") :
    Backend.runStrategy db order user amt bon now =
      Backend.gameLoadStrategy db order user now := by
  unfold Backend.runStrategy
  rw [if_neg (by rw [h]; decide), if_pos h]

theorem runStrategy_withdrawal (db : DB) (order : Order) (user : User) (amt bon : ℤ)
    (now : Nat) (h : order.order_type = "withdrawal") :
    Backend.runStrategy db order user amt bon now =
      Backend.withdrawalStrategy db order user amt now := by
  unfold Backend.runStrategy
  rw [if_neg (by rw [h]; decide), if_neg (by rw [h]; decide), if_pos h]

theorem withdrawalStrategy_insufficient (db0 : DB) (order : Order) (user : User)
    (amt : ℤ) (now : Nat) (hb : user.real_balance - amt < 0) :
    Backend.withdrawalStrategy db0 order user amt now =
      (db0, "APPROVED_FAILED",
       some { emptyExec with
              success := false,
              error := some "Withdrawal failed: Insufficient balance for withdrawal" },
       some "Withdrawal failed: Insufficient balance for withdrawal", some now) := by
  unfold Backend.withdrawalStrategy
  dsimp only
  rw [if_pos hb]

theorem withdrawalStrategy_ok_parts (db0 : DB) (order : Order) (user : User) (amt : ℤ)
    (now : Nat) (hb : ¬ user.real_balance - amt < 0) :
    (Backend.withdrawalStrategy db0 order user amt now).2.1 = "APPROVED_EXECUTED" ∧
    (Backend.withdrawalStrategy db0 order user amt now).1.ledger =
      { ledger_id := freshId db0.next_id, user_id := user.user_id,
        transaction_type := "debit", amount := amt,
        balance_before := user.real_balance, balance_after := user.real_balance - amt,
        reference_type := "withdrawal", reference_id := order.order_id,
        description := "Withdrawal to " ++ order.payment_method } :: db0.ledger := by
  unfold Backend.withdrawalStrategy
  dsimp only
  rw [if_neg hb]
  exact ⟨rfl, rfl⟩

theorem execute_game_load_none (db0 : DB) (order : Order) (user : User)
    (hg : fetchGame db0 order.game_name = none) :
    Backend.execute_game_load db0 order user =
      (db0, { emptyExec with
              success := false,
              error := some ("Game not found: " ++ order.game_name) }) := by
  unfold Backend.execute_game_load
  dsimp only
  rw [hg]

theorem execute_game_load_insufficient (db0 : DB) (order : Order) (user : User)
    (game : Game) (hfu : fetchUser db0 user.user_id = some user)
    (hg : fetchGame db0 order.game_name = some game)
    (hb : user.real_balance - order.amount < 0) :
    Backend.execute_game_load db0 order user =
      (db0, { emptyExec with success := false, error := some "Insufficient wallet balance" }) := by
  unfold Backend.execute_game_load
  dsimp only
  rw [hg, hfu]
  dsimp only [Option.map, Option.getD]
  rw [if_pos hb]

theorem execute_game_load_ok_parts (db0 : DB) (order : Order) (user : User) (game : Game)
    (hfu : fetchUser db0 user.user_id = some user)
    (hg : fetchGame db0 order.game_name = some game)
    (hb : ¬ user.real_balance - order.amount < 0) :
    (Backend.execute_game_load db0 order user).2.success = true ∧
    (Backend.execute_game_load db0 order user).1.ledger =
      { ledger_id := freshId (db0.next_id + 1), user_id := user.user_id,
        transaction_type := "debit", amount := order.amount,
        balance_before := user.real_balance,
        balance_after := user.real_balance - order.amount,
        reference_type := "game_load", reference_id := freshId db0.next_id,
        description := "Game load: " ++ game.display_name ++ " (Order: " ++
          order.order_id.take 8 ++ ")" } :: db0.ledger := by
  unfold Backend.execute_game_load
  dsimp only
  rw [hg, hfu]
  dsimp only [Option.map, Option.getD]
  rw [if_neg hb]
  exact ⟨rfl, rfl⟩

theorem gameLoadStrategy_fail_parts (db0 : DB) (order : Order) (user : User) (now : Nat)
    (hfail : (Backend.execute_game_load db0 order user).2.success = false)
    (hdb : (Backend.execute_game_load db0 order user).1 = db0) :
    (Backend.gameLoadStrategy db0 order user now).2.1 = "APPROVED_FAILED" ∧
    (Backend.gameLoadStrategy db0 order user now).1.ledger = db0.ledger := by
  unfold Backend.gameLoadStrategy
  dsimp only
  rw [if_neg (by rw [hfail]; decide)]
  refine ⟨rfl, ?_⟩
  show (Backend.execute_game_load db0 order user).1.ledger = db0.ledger
  rw [hdb]

theorem gameLoadStrategy_ok_parts (db0 : DB) (order : Order) (user : User) (now : Nat)
    (hok : (Backend.execute_game_load db0 order user).2.success = true) :
    (Backend.gameLoadStrategy db0 order user now).2.1 = "APPROVED_EXECUTED" ∧
    (Backend.gameLoadStrategy db0 order user now).1.ledger =
      (Backend.execute_game_load db0 order user).1.ledger := by
  unfold Backend.gameLoadStrategy
  dsimp only
  rw [if_pos hok]
  exact ⟨rfl, rfl⟩

theorem AI9_process_rejection_status (db : DB) (order : Order) (user : User)
    (atype : ActorType) (aid : String) (rr : Option String) (now : Nat) :
    orderStatus (AI9._process_rejection db order user atype aid rr now).1 order.order_id =
      (fetchOrder db order.order_id).map (fun _ => "REJECTED") := by
  unfold AI9._process_rejection orderStatus
  dsimp only
  simp only [fetchOrder_emit]
  refine orderStatus_updateOrder _ _ _ ?_ _ ?_ <;> intro o <;> rfl

/-- C4: whenever an approve or reject call actually processes a request
(authorization passes, the order exists, its status is accepted by the
idempotency check and its user exists), the resulting order status is one
of the terminal canonical values APPROVED_EXECUTED, APPROVED_FAILED or
REJECTED and is never left pending, in both the backend and the AI9-main
variant; in particular an execution error raised inside the atomic unit
still ends in APPROVED_FAILED. -/
theorem c4_decision_reaches_terminal_status :
    (∀ (db : DB) (oid action : String) (atype : ActorType) (aid : String) (fa : Option ℤ)
        (rr : Option String) (now : Nat) (order : Order) (user : User),
      fetchOrder db oid = some order →
      order.status ∈ Backend.pendingStatuses →
      fetchUser db order.user_id = some user →
      ∃ st ∈ (["APPROVED_EXECUTED", "APPROVED_FAILED", "REJECTED"] : List String),
        orderStatus (Backend.approve_or_reject_order db oid action atype aid fa rr none
          now).1 oid = some st) ∧
    (∀ (db : DB) (oid action : String) (atype : ActorType) (aid : String) (fa : Option ℤ)
        (rr : Option String) (now : Nat) (order : Order) (user : User),
      fetchOrder db oid = some order →
      order.status ∈ AI9.valid_pending_states →
      fetchUser db order.user_id = some user →
      ∃ st ∈ (["APPROVED_EXECUTED", "APPROVED_FAILED", "REJECTED"] : List String),
        orderStatus (AI9.approve_or_reject_order db oid action atype aid fa rr none now).1
          oid = some st) := by
  constructor
  · intro db oid action atype aid fa rr now order user hfo hg hfu
    have hoid : order.order_id = oid := by simpa using List.find?_some hfo
    subst hoid
    unfold Backend.approve_or_reject_order
    rw [botAuthFailure_none_bid]
    dsimp only
    rw [hfo]
    dsimp only
    rw [if_pos hg, hfu]
    dsimp only
    have ho : (fetchOrder db order.order_id).isSome = true := by
      rw [hfo]
      rfl
    by_cases ha : action = "approve"
    · rw [if_pos ha]
      rcases process_approval_terminal db order user atype aid fa now ho with hs | hs
      · exact ⟨"APPROVED_EXECUTED", by decide, hs⟩
      · exact ⟨"APPROVED_FAILED", by decide, hs⟩
    · rw [if_neg ha]
      refine ⟨"REJECTED", by decide, ?_⟩
      rw [process_rejection_status, hfo]
      rfl
  · intro db oid action atype aid fa rr now order user hfo hg hfu
    have hoid : order.order_id = oid := by simpa using List.find?_some hfo
    subst hoid
    unfold AI9.approve_or_reject_order
    rw [botAuthFailure_none_bid]
    dsimp only
    rw [hfo]
    dsimp only
    rw [if_pos hg, hfu]
    dsimp only
    have ho : (fetchOrder db order.order_id).isSome = true := by
      rw [hfo]
      rfl
    by_cases ha : action = "approve"
    · rw [if_pos ha]
      rcases AI9_process_approval_terminal db order user atype aid fa now ho with hs | hs
      · exact ⟨"APPROVED_EXECUTED", by decide, hs⟩
      · exact ⟨"APPROVED_FAILED", by decide, hs⟩
    · rw [if_neg ha]
      refine ⟨"REJECTED", by decide, ?_⟩
      rw [AI9_process_rejection_status, hfo]
      rfl

theorem c4_witness :
    ∃ st ∈ (["APPROVED_EXECUTED", "APPROVED_FAILED", "REJECTED"] : List String),
      orderStatus (Backend.approve_or_reject_order
        { emptyDB with orders := [baseOrder], users := [baseUser] }
        "o1" "approve" ActorType.admin "a1" none none none 7).1 "o1" = some st :=
  c4_decision_reaches_terminal_status.1
    { emptyDB with orders := [baseOrder], users := [baseUser] }
    "o1" "approve" ActorType.admin "a1" none none 7 baseOrder baseUser
    (by decide) (by decide) (by decide)

theorem c2_witness :
    Backend.approve_or_reject_order
        (Backend.approve_or_reject_order
          { emptyDB with orders := [baseOrder], users := [baseUser] }
          "o1" "approve" ActorType.admin "a1" none none none 7).1
        "o1" "approve" ActorType.admin "a1" none none none 8 =
      ((Backend.approve_or_reject_order
          { emptyDB with orders := [baseOrder], users := [baseUser] }
          "o1" "approve" ActorType.admin "a1" none none none 7).1,
       { success := false, message := "Order already APPROVED_EXECUTED",
         already_processed := true }) :=
  c2_decide_approve_idempotent _ "o1" ActorType.admin "a1" none none none 7 8 (by decide)

/-- C1 (amended): in the backend variant, an approved order of a credit
or debit kind (with no caller amount adjustment) ends in APPROVED_EXECUTED
if and only if exactly one wallet_ledger entry with matching amount for
the owning user was appended in the same unit of work; the entry
references the order id for wallet_topup, deposit and withdrawal, while
for game_load it references the newly created game-load record instead of
the order; when the order ends in APPROVED_FAILED no ledger entry is
written.  (The claim as frozen fails on the AI9-main variant, whose
game_load branch writes APPROVED_EXECUTED with no ledger entry at all.) -/
theorem c1_execution_honesty (db : DB) (order : Order) (user : User) (atype : ActorType)
    (aid : String) (now : Nat)
    (hk : order.order_type = "wallet_topup" ∨ order.order_type = "deposit" ∨
      order.order_type = "withdrawal" ∨ order.order_type = "game_load")
    (hfo : fetchOrder db order.order_id = some order)
    (hfu : fetchUser db user.user_id = some user) :
    (orderStatus (Backend._process_approval db order user atype aid none now).1
        order.order_id = some "APPROVED_EXECUTED" ↔
      ∃ e, (Backend._process_approval db order user atype aid none now).1.ledger =
          e :: db.ledger ∧ e.amount = order.amount ∧ e.user_id = user.user_id ∧
          (order.order_type = "game_load" ∨ e.reference_id = order.order_id)) ∧
    (orderStatus (Backend._process_approval db order user atype aid none now).1
        order.order_id = some "APPROVED_FAILED" →
      (Backend._process_approval db order user atype aid none now).1.ledger = db.ledger) := by
  have ho : (fetchOrder db order.order_id).isSome = true := by
    rw [hfo]
    rfl
  rcases hk with h | h | h | h
  · have hcred : order.order_type = "wallet_topup" ∨ order.order_type = "deposit" := Or.inl h
    have hst : orderStatus (Backend._process_approval db order user atype aid none now).1
        order.order_id = some "APPROVED_EXECUTED" := by
      rw [process_approval_status_eq, hfo]
      dsimp only [Option.map, Option.getD]
      rw [runStrategy_credit _ _ _ _ _ _ hcred]
      rfl
    have hld : (Backend._process_approval db order user atype aid none now).1.ledger =
        { ledger_id := freshId db.next_id, user_id := user.user_id,
          transaction_type := "credit", amount := order.amount,
          balance_before := user.real_balance,
          balance_after := user.real_balance + order.amount,
          reference_type := "order", reference_id := order.order_id,
          description := "Wallet top-up via " ++ order.payment_method } :: db.ledger := by
      unfold Backend._process_approval
      dsimp only [Option.getD]
      rw [finishApproval_ledger, runStrategy_credit _ _ _ _ _ _ hcred]
      rfl
    exact ⟨⟨fun _ => ⟨_, hld, rfl, rfl, Or.inr rfl⟩, fun _ => hst⟩,
      fun hAF => absurd (hst.symm.trans hAF) (by decide)⟩
  · have hcred : order.order_type = "wallet_topup" ∨ order.order_type = "deposit" := Or.inr h
    have hst : orderStatus (Backend._process_approval db order user atype aid none now).1
        order.order_id = some "APPROVED_EXECUTED" := by
      rw [process_approval_status_eq, hfo]
      dsimp only [Option.map, Option.getD]
      rw [runStrategy_credit _ _ _ _ _ _ hcred]
      rfl
    have hld : (Backend._process_approval db order user atype aid none now).1.ledger =
        { ledger_id := freshId db.next_id, user_id := user.user_id,
          transaction_type := "credit", amount := order.amount,
          balance_before := user.real_balance,
          balance_after := user.real_balance + order.amount,
          reference_type := "order", reference_id := order.order_id,
          description := "Wallet top-up via " ++ order.payment_method } :: db.ledger := by
      unfold Backend._process_approval
      dsimp only [Option.getD]
      rw [finishApproval_ledger, runStrategy_credit _ _ _ _ _ _ hcred]
      rfl
    exact ⟨⟨fun _ => ⟨_, hld, rfl, rfl, Or.inr rfl⟩, fun _ => hst⟩,
      fun hAF => absurd (hst.symm.trans hAF) (by decide)⟩
  · by_cases hb : user.real_balance - order.amount < 0
    · have hst : orderStatus (Backend._process_approval db order user atype aid none now).1
          order.order_id = some "APPROVED_FAILED" := by
        rw [process_approval_status_eq, hfo]
        dsimp only [Option.map, Option.getD]
        rw [runStrategy_withdrawal _ _ _ _ _ _ h,
          withdrawalStrategy_insufficient _ _ _ _ _ hb]
      have hld : (Backend._process_approval db order user atype aid none now).1.ledger =
          db.ledger := by
        unfold Backend._process_approval
        dsimp only [Option.getD]
        rw [finishApproval_ledger, runStrategy_withdrawal _ _ _ _ _ _ h,
          withdrawalStrategy_insufficient _ _ _ _ _ hb]
        rfl
      refine ⟨⟨fun hAE => absurd (hst.symm.trans hAE) (by decide), ?_⟩, fun _ => hld⟩
      rintro ⟨e, he, -, -, -⟩
      have hlen := congrArg List.length (hld.symm.trans he)
      simp at hlen
    · have hparts := withdrawalStrategy_ok_parts (updateOrder db order.order_id
        (fun o => { o with execution_attempts := o.execution_attempts + 1 }))
        order user order.amount now hb
      have hst : orderStatus (Backend._process_approval db order user atype aid none now).1
          order.order_id = some "APPROVED_EXECUTED" := by
        rw [process_approval_status_eq, hfo]
        dsimp only [Option.map, Option.getD]
        rw [runStrategy_withdrawal _ _ _ _ _ _ h, hparts.1]
      have hld : (Backend._process_approval db order user atype aid none now).1.ledger =
          { ledger_id := freshId db.next_id, user_id := user.user_id,
            transaction_type := "debit", amount := order.amount,
            balance_before := user.real_balance,
            balance_after := user.real_balance - order.amount,
            reference_type := "withdrawal", reference_id := order.order_id,
            description := "Withdrawal to " ++ order.payment_method } :: db.ledger := by
        unfold Backend._process_approval
        dsimp only [Option.getD]
        rw [finishApproval_ledger, runStrategy_withdrawal _ _ _ _ _ _ h, hparts.2]
        rfl
      exact ⟨⟨fun _ => ⟨_, hld, rfl, rfl, Or.inr rfl⟩, fun _ => hst⟩,
        fun hAF => absurd (hst.symm.trans hAF) (by decide)⟩
  · rcases hgame : fetchGame db order.game_name with _ | game
    · have hexec := execute_game_load_none (updateOrder db order.order_id
        (fun o => { o with execution_attempts := o.execution_attempts + 1 }))
        order user hgame
      have hsparts := gameLoadStrategy_fail_parts _ order user now
        (by rw [hexec]) (by rw [hexec])
      have hst : orderStatus (Backend._process_approval db order user atype aid none now).1
          order.order_id = some "APPROVED_FAILED" := by
        rw [process_approval_status_eq, hfo]
        dsimp only [Option.map, Option.getD]
        rw [runStrategy_game _ _ _ _ _ _ h, hsparts.1]
      have hld : (Backend._process_approval db order user atype aid none now).1.ledger =
          db.ledger := by
        unfold Backend._process_approval
        dsimp only [Option.getD]
        rw [finishApproval_ledger, runStrategy_game _ _ _ _ _ _ h, hsparts.2]
        rfl
      refine ⟨⟨fun hAE => absurd (hst.symm.trans hAE) (by decide), ?_⟩, fun _ => hld⟩
      rintro ⟨e, he, -, -, -⟩
      have hlen := congrArg List.length (hld.symm.trans he)
      simp at hlen
    · by_cases hb : user.real_balance - order.amount < 0
      · have hexec := execute_game_load_insufficient (updateOrder db order.order_id
          (fun o => { o with execution_attempts := o.execution_attempts + 1 }))
          order user game hfu hgame hb
        have hsparts := gameLoadStrategy_fail_parts _ order user now
          (by rw [hexec]) (by rw [hexec])
        have hst : orderStatus (Backend._process_approval db order user atype aid none
            now).1 order.order_id = some "APPROVED_FAILED" := by
          rw [process_approval_status_eq, hfo]
          dsimp only [Option.map, Option.getD]
          rw [runStrategy_game _ _ _ _ _ _ h, hsparts.1]
        have hld : (Backend._process_approval db order user atype aid none now).1.ledger =
            db.ledger := by
          unfold Backend._process_approval
          dsimp only [Option.getD]
          rw [finishApproval_ledger, runStrategy_game _ _ _ _ _ _ h, hsparts.2]
          rfl
        refine ⟨⟨fun hAE => absurd (hst.symm.trans hAE) (by decide), ?_⟩, fun _ => hld⟩
        rintro ⟨e, he, -, -, -⟩
        have hlen := congrArg List.length (hld.symm.trans he)
        simp at hlen
      · have hparts := execute_game_load_ok_parts (updateOrder db order.order_id
          (fun o => { o with execution_attempts := o.execution_attempts + 1 }))
          order user game hfu hgame hb
        have hsparts := gameLoadStrategy_ok_parts _ order user now hparts.1
        have hst : orderStatus (Backend._process_approval db order user atype aid none
            now).1 order.order_id = some "APPROVED_EXECUTED" := by
          rw [process_approval_status_eq, hfo]
          dsimp only [Option.map, Option.getD]
          rw [runStrategy_game _ _ _ _ _ _ h, hsparts.1]
        have hld : (Backend._process_approval db order user atype aid none now).1.ledger =
            { ledger_id := freshId (db.next_id + 1), user_id := user.user_id,
              transaction_type := "debit", amount := order.amount,
              balance_before := user.real_balance,
              balance_after := user.real_balance - order.amount,
              reference_type := "game_load", reference_id := freshId db.next_id,
              description := "Game load: " ++ game.display_name ++ " (Order: " ++
                order.order_id.take 8 ++ ")" } :: db.ledger := by
          unfold Backend._process_approval
          dsimp only [Option.getD]
          rw [finishApproval_ledger, runStrategy_game _ _ _ _ _ _ h, hsparts.2, hparts.2]
          rfl
        exact ⟨⟨fun _ => ⟨_, hld, rfl, rfl, Or.inl h⟩, fun _ => hst⟩,
          fun hAF => absurd (hst.symm.trans hAF) (by decide)⟩

theorem c1_witness :
    (orderStatus (Backend._process_approval
        { emptyDB with orders := [baseOrder], users := [baseUser] }
        baseOrder baseUser ActorType.admin "a1" none 7).1
        baseOrder.order_id = some "APPROVED_EXECUTED" ↔
      ∃ e, (Backend._process_approval
          { emptyDB with orders := [baseOrder], users := [baseUser] }
          baseOrder baseUser ActorType.admin "a1" none 7).1.ledger =
          e :: ({ emptyDB with orders := [baseOrder], users := [baseUser] } : DB).ledger ∧
          e.amount = baseOrder.amount ∧ e.user_id = baseUser.user_id ∧
          (baseOrder.order_type = "game_load" ∨ e.reference_id = baseOrder.order_id)) ∧
    (orderStatus (Backend._process_approval
        { emptyDB with orders := [baseOrder], users := [baseUser] }
        baseOrder baseUser ActorType.admin "a1" none 7).1
        baseOrder.order_id = some "APPROVED_FAILED" →
      (Backend._process_approval
        { emptyDB with orders := [baseOrder], users := [baseUser] }
        baseOrder baseUser ActorType.admin "a1" none 7).1.ledger =
        ({ emptyDB with orders := [baseOrder], users := [baseUser] } : DB).ledger) :=
  c1_execution_honesty { emptyDB with orders := [baseOrder], users := [baseUser] }
    baseOrder baseUser ActorType.admin "a1" 7 (by decide) (by decide) (by decide)

/-- C1 counterexample: in the AI9-main variant, approving a game_load
order marks it APPROVED_EXECUTED while writing no wallet_ledger entry at
all, refuting the claim that APPROVED_EXECUTED holds only together with a
matching ledger entry. -/
theorem c1_counterexample :
    (AI9.approve_or_reject_order
      { emptyDB with orders := [{ baseOrder with order_type := "game_load" }],
                     users := [baseUser], games := [baseGame] }
      "o1" "approve" ActorType.admin "a1" none none none 7).2.success = true ∧
    orderStatus (AI9.approve_or_reject_order
      { emptyDB with orders := [{ baseOrder with order_type := "game_load" }],
                     users := [baseUser], games := [baseGame] }
      "o1" "approve" ActorType.admin "a1" none none none 7).1 "o1" =
      some "APPROVED_EXECUTED" ∧
    (AI9.approve_or_reject_order
      { emptyDB with orders := [{ baseOrder with order_type := "game_load" }],
                     users := [baseUser], games := [baseGame] }
      "o1" "approve" ActorType.admin "a1" none none none 7).1.ledger = [] := by
  exact ⟨by decide, by decide, by decide⟩

theorem finishApproval_failed_result (db : DB) (order : Order) (user : User)
    (atype : ActorType) (aid : String) (amt bon : ℤ) (adj : Bool) (er : Option ExecResult)
    (ee : Option String) (ea : Option Nat) (now : Nat) :
    (Backend.finishApproval db order user atype aid amt bon adj "APPROVED_FAILED" er ee ea
      now).2 = mkFail ("Execution failed: " ++ ee.getD "") := by
  unfold Backend.finishApproval
  dsimp only
  rw [if_pos rfl]

theorem gameLoadStrategy_fail_eq (db0 : DB) (order : Order) (user : User) (now : Nat)
    (res : ExecResult) (hexec : Backend.execute_game_load db0 order user = (db0, res))
    (hfail : res.success = false) :
    Backend.gameLoadStrategy db0 order user now =
      (emit db0
        { etype := "GAME_LOAD_FAILED", reference_id := order.order_id,
          reference_type := "order", user_id := user.user_id, amount := none,
          old_amount := none, new_amount := none, requires_action := true },
       "APPROVED_FAILED", some res, some (res.error.getD "Game load execution failed"),
       some now) := by
  unfold Backend.gameLoadStrategy
  dsimp only
  rw [hexec]
  dsimp only
  rw [if_neg (by rw [hfail]; decide)]

/-- C3 (amended): only the order-flow debit paths enforce non-negativity.
A withdrawal whose effective amount exceeds the balance, and a game load
whose amount exceeds the balance, are rejected inside the unit: the
request ends APPROVED_FAILED with an insufficient-balance error, the user
rows and the ledger are untouched.  (The claim as frozen fails on the
credit paths: the backend wallet-load approve applies a caller-supplied
negative final_amount unchecked and commits a negative balance together
with a ledger entry.) -/
theorem c3_debit_nonnegativity (db : DB) (order : Order) (user : User) (atype : ActorType)
    (aid : String) (fa : Option ℤ) (now : Nat) :
    (order.order_type = "withdrawal" →
      fetchOrder db order.order_id = some order →
      user.real_balance - fa.getD order.amount < 0 →
      (Backend._process_approval db order user atype aid fa now).1.ledger = db.ledger ∧
      (Backend._process_approval db order user atype aid fa now).1.users = db.users ∧
      (Backend._process_approval db order user atype aid fa now).2 =
        mkFail "Execution failed: Withdrawal failed: Insufficient balance for withdrawal" ∧
      orderStatus (Backend._process_approval db order user atype aid fa now).1
        order.order_id = some "APPROVED_FAILED") ∧
    (∀ game : Game, order.order_type = "game_load" →
      fetchOrder db order.order_id = some order →
      fetchUser db user.user_id = some user →
      fetchGame db order.game_name = some game →
      user.real_balance - order.amount < 0 →
      (Backend._process_approval db order user atype aid fa now).1.ledger = db.ledger ∧
      (Backend._process_approval db order user atype aid fa now).1.users = db.users ∧
      (Backend._process_approval db order user atype aid fa now).2 =
        mkFail "Execution failed: Insufficient wallet balance" ∧
      orderStatus (Backend._process_approval db order user atype aid fa now).1
        order.order_id = some "APPROVED_FAILED") := by
  constructor
  · intro h hfo hb
    have ho : (fetchOrder db order.order_id).isSome = true := by
      rw [hfo]
      rfl
    refine ⟨?_, ?_, ?_, ?_⟩
    · unfold Backend._process_approval
      dsimp only
      rw [finishApproval_ledger, runStrategy_withdrawal _ _ _ _ _ _ h,
        withdrawalStrategy_insufficient _ _ _ _ _ hb]
      rfl
    · unfold Backend._process_approval
      dsimp only
      rw [finishApproval_users, runStrategy_withdrawal _ _ _ _ _ _ h,
        withdrawalStrategy_insufficient _ _ _ _ _ hb]
      rfl
    · unfold Backend._process_approval
      dsimp only
      rw [runStrategy_withdrawal _ _ _ _ _ _ h,
        withdrawalStrategy_insufficient _ _ _ _ _ hb]
      rw [finishApproval_failed_result]
      rfl
    · rw [process_approval_status_eq, hfo]
      dsimp only [Option.map]
      rw [runStrategy_withdrawal _ _ _ _ _ _ h,
        withdrawalStrategy_insufficient _ _ _ _ _ hb]
  · intro game h hfo hfu hg hb
    have ho : (fetchOrder db order.order_id).isSome = true := by
      rw [hfo]
      rfl
    have hexec := execute_game_load_insufficient (updateOrder db order.order_id
      (fun o => { o with execution_attempts := o.execution_attempts + 1 }))
      order user game hfu hg hb
    have hsparts := gameLoadStrategy_fail_parts _ order user now
      (by rw [hexec]) (by rw [hexec])
    refine ⟨?_, ?_, ?_, ?_⟩
    · unfold Backend._process_approval
      dsimp only
      rw [finishApproval_ledger, runStrategy_game _ _ _ _ _ _ h, hsparts.2]
      rfl
    · unfold Backend._process_approval
      dsimp only
      rw [finishApproval_users, runStrategy_game _ _ _ _ _ _ h,
        gameLoadStrategy_fail_eq _ _ _ _ _ hexec rfl]
      rfl
    · unfold Backend._process_approval
      dsimp only
      rw [runStrategy_game _ _ _ _ _ _ h,
        gameLoadStrategy_fail_eq _ _ _ _ _ hexec rfl]
      rw [finishApproval_failed_result]
      rfl
    · rw [process_approval_status_eq, hfo]
      dsimp only [Option.map]
      rw [runStrategy_game _ _ _ _ _ _ h, hsparts.1]

theorem c3_witness :
    (Backend._process_approval
        { emptyDB with orders := [{ baseOrder with order_type := "withdrawal", amount := 300 }],
                       users := [{ baseUser with real_balance := 100 }] }
        { baseOrder with order_type := "withdrawal", amount := 300 }
        { baseUser with real_balance := 100 } ActorType.admin "a1" none 7).1.ledger =
      ({ emptyDB with orders := [{ baseOrder with order_type := "withdrawal", amount := 300 }],
                      users := [{ baseUser with real_balance := 100 }] } : DB).ledger ∧
    (Backend._process_approval
        { emptyDB with orders := [{ baseOrder with order_type := "withdrawal", amount := 300 }],
                       users := [{ baseUser with real_balance := 100 }] }
        { baseOrder with order_type := "withdrawal", amount := 300 }
        { baseUser with real_balance := 100 } ActorType.admin "a1" none 7).1.users =
      ({ emptyDB with orders := [{ baseOrder with order_type := "withdrawal", amount := 300 }],
                      users := [{ baseUser with real_balance := 100 }] } : DB).users ∧
    (Backend._process_approval
        { emptyDB with orders := [{ baseOrder with order_type := "withdrawal", amount := 300 }],
                       users := [{ baseUser with real_balance := 100 }] }
        { baseOrder with order_type := "withdrawal", amount := 300 }
        { baseUser with real_balance := 100 } ActorType.admin "a1" none 7).2 =
      mkFail "Execution failed: Withdrawal failed: Insufficient balance for withdrawal" ∧
    orderStatus (Backend._process_approval
        { emptyDB with orders := [{ baseOrder with order_type := "withdrawal", amount := 300 }],
                       users := [{ baseUser with real_balance := 100 }] }
        { baseOrder with order_type := "withdrawal", amount := 300 }
        { baseUser with real_balance := 100 } ActorType.admin "a1" none 7).1
      ({ baseOrder with order_type := "withdrawal", amount := 300 } : Order).order_id =
      some "APPROVED_FAILED" :=
  (c3_debit_nonnegativity
    { emptyDB with orders := [{ baseOrder with order_type := "withdrawal", amount := 300 }],
                   users := [{ baseUser with real_balance := 100 }] }
    { baseOrder with order_type := "withdrawal", amount := 300 }
    { baseUser with real_balance := 100 } ActorType.admin "a1" none 7).1
    (by decide) (by decide) (by decide)

/-- C3 counterexample: the backend wallet-load approve applies a
caller-supplied negative final_amount with no non-negativity check: the
call succeeds, the user balance is committed at -100 and a ledger entry is
written, refuting the claim that a mutation with current + delta < 0 is
rejected with no ledger entry. -/
theorem c3_counterexample :
    (Backend.approve_or_reject_wallet_load
      { emptyDB with wallet_load_requests := [baseReq], users := [baseUser] }
      "r1" "approve" ActorType.admin "a1" (some (-100)) none none 7).2.success = true ∧
    ((fetchUser (Backend.approve_or_reject_wallet_load
      { emptyDB with wallet_load_requests := [baseReq], users := [baseUser] }
      "r1" "approve" ActorType.admin "a1" (some (-100)) none none 7).1 "u1").map
        User.real_balance) = some (-100) ∧
    (Backend.approve_or_reject_wallet_load
      { emptyDB with wallet_load_requests := [baseReq], users := [baseUser] }
      "r1" "approve" ActorType.admin "a1" (some (-100)) none none 7).1.ledger.length = 1 := by
  exact ⟨by decide, by decide, by decide⟩

theorem botAuthFailure_some_eval (db : DB) (b : String) (cap : Bot → Bool) (msg : String)
    (hb : b ≠ "") :
    botAuthFailure db ActorType.telegram_bot (some b) cap msg =
      match fetchBot db b with
      | none => some (mkFail "Bot not found")
      | some bot =>
        if bot.is_active = false then some (mkFail "Bot is not active")
        else if cap bot = false then some (mkFail msg)
        else none := by
  unfold botAuthFailure
  rw [if_pos ⟨rfl, by simp [truthy, hb]⟩]
  rfl

/-- C5 (amended): when the actor is the Telegram bot and a (non-empty)
bot_id is supplied, the decision is performed only when the bot record
exists, is active and carries the capability flag matching the operation;
a missing record, an inactive bot and a missing capability each return
their own distinct failure message, with success false and the store
completely untouched, in both the order and the wallet-load flow.  (The
claim as frozen fails because the check is skipped entirely when no
bot_id is supplied: a telegram_bot actor with bot_id = none is processed
without any bot lookup.) -/
theorem c5_bot_authorization (db : DB) (oid rid action : String) (aid : String)
    (fa : Option ℤ) (rr : Option String) (b : String) (now : Nat) (hb : b ≠ "") :
    (fetchBot db b = none →
      Backend.approve_or_reject_order db oid action ActorType.telegram_bot aid fa rr
          (some b) now = (db, mkFail "Bot not found") ∧
      Backend.approve_or_reject_wallet_load db rid action ActorType.telegram_bot aid fa rr
          (some b) now = (db, mkFail "Bot not found")) ∧
    (∀ bot : Bot, fetchBot db b = some bot → bot.is_active = false →
      Backend.approve_or_reject_order db oid action ActorType.telegram_bot aid fa rr
          (some b) now = (db, mkFail "Bot is not active") ∧
      Backend.approve_or_reject_wallet_load db rid action ActorType.telegram_bot aid fa rr
          (some b) now = (db, mkFail "Bot is not active")) ∧
    (∀ bot : Bot, fetchBot db b = some bot → bot.is_active = true →
      bot.can_approve_payments = false →
      Backend.approve_or_reject_order db oid action ActorType.telegram_bot aid fa rr
          (some b) now = (db, mkFail "Bot does not have approval permissions")) ∧
    (∀ bot : Bot, fetchBot db b = some bot → bot.is_active = true →
      bot.can_approve_wallet_loads = false →
      Backend.approve_or_reject_wallet_load db rid action ActorType.telegram_bot aid fa rr
          (some b) now =
        (db, mkFail "Bot does not have wallet load approval permissions")) := by
  refine ⟨fun hfb => ⟨?_, ?_⟩, fun bot hfb hact => ⟨?_, ?_⟩, fun bot hfb hact hcap => ?_,
    fun bot hfb hact hcap => ?_⟩
  · unfold Backend.approve_or_reject_order
    rw [botAuthFailure_some_eval db b _ _ hb, hfb]
  · unfold Backend.approve_or_reject_wallet_load
    rw [botAuthFailure_some_eval db b _ _ hb, hfb]
  · unfold Backend.approve_or_reject_order
    rw [botAuthFailure_some_eval db b _ _ hb, hfb]
    dsimp only
    rw [if_pos hact]
  · unfold Backend.approve_or_reject_wallet_load
    rw [botAuthFailure_some_eval db b _ _ hb, hfb]
    dsimp only
    rw [if_pos hact]
  · unfold Backend.approve_or_reject_order
    rw [botAuthFailure_some_eval db b _ _ hb, hfb]
    dsimp only
    rw [if_neg (by rw [hact]; decide), if_pos hcap]
  · unfold Backend.approve_or_reject_wallet_load
    rw [botAuthFailure_some_eval db b _ _ hb, hfb]
    dsimp only
    rw [if_neg (by rw [hact]; decide), if_pos hcap]

theorem c5_witness :
    Backend.approve_or_reject_order
        { emptyDB with orders := [baseOrder], users := [baseUser] }
        "o1" "approve" ActorType.telegram_bot "b9" none none (some "b9") 7 =
      ({ emptyDB with orders := [baseOrder], users := [baseUser] },
       mkFail "Bot not found") ∧
    Backend.approve_or_reject_wallet_load
        { emptyDB with orders := [baseOrder], users := [baseUser] }
        "r1" "approve" ActorType.telegram_bot "b9" none none (some "b9") 7 =
      ({ emptyDB with orders := [baseOrder], users := [baseUser] },
       mkFail "Bot not found") :=
  (c5_bot_authorization { emptyDB with orders := [baseOrder], users := [baseUser] }
    "o1" "r1" "approve" "b9" none none "b9" 7 (by decide)).1 (by decide)

/-- C5 counterexample: a telegram_bot actor that supplies no bot_id is
processed without any bot validation: with an empty telegram_bots table
the approve call still succeeds and executes side effects (a ledger entry
is written), refuting the claim that a bot actor is processed only when an
active, capable bot record resolves. -/
theorem c5_counterexample :
    (Backend.approve_or_reject_order
      { emptyDB with orders := [baseOrder], users := [baseUser] }
      "o1" "approve" ActorType.telegram_bot "b9" none none none 7).2.success = true ∧
    (Backend.approve_or_reject_order
      { emptyDB with orders := [baseOrder], users := [baseUser] }
      "o1" "approve" ActorType.telegram_bot "b9" none none none 7).1.ledger.length = 1 := by
  exact ⟨by decide, by decide⟩

theorem finishApproval_already (db : DB) (order : Order) (user : User) (atype : ActorType)
    (aid : String) (amt bon : ℤ) (adj : Bool) (fs : String) (er : Option ExecResult)
    (ee : Option String) (ea : Option Nat) (now : Nat) :
    (Backend.finishApproval db order user atype aid amt bon adj fs er ee ea
      now).2.already_processed = false := by
  unfold Backend.finishApproval
  dsimp only
  repeat' split
  all_goals rfl

theorem process_approval_already (db : DB) (order : Order) (user : User)
    (atype : ActorType) (aid : String) (fa : Option ℤ) (now : Nat) :
    (Backend._process_approval db order user atype aid fa now).2.already_processed =
      false := by
  unfold Backend._process_approval
  dsimp only
  exact finishApproval_already _ _ _ _ _ _ _ _ _ _ _ _ _

theorem process_rejection_already (db : DB) (order : Order) (user : User)
    (atype : ActorType) (aid : String) (rr : Option String) (now : Nat) :
    (Backend._process_rejection db order user atype aid rr now).2.already_processed =
      false := rfl

theorem AI9_process_approval_already (db : DB) (order : Order) (user : User)
    (atype : ActorType) (aid : String) (fa : Option ℤ) (now : Nat) :
    (AI9._process_approval db order user atype aid fa now).2.already_processed = false := by
  unfold AI9._process_approval
  dsimp only
  split
  · rfl
  · rfl

theorem AI9_process_rejection_already (db : DB) (order : Order) (user : User)
    (atype : ActorType) (aid : String) (rr : Option String) (now : Nat) :
    (AI9._process_rejection db order user atype aid rr now).2.already_processed =
      false := rfl

/-- C6 (amended): the idempotency guards accept exactly these stored
statuses as processable: the backend order flow accepts pending,
PENDING_REVIEW, initiated and awaiting_payment_proof (but not lowercase
pending_review); the backend wallet-load flow accepts only the literal
pending; the AI9-main order flow accepts PENDING_REVIEW, pending_review,
pending, initiated and awaiting_payment_proof; the AI9-main wallet-load
flow accepts PENDING_REVIEW, pending_review and pending.  Any other stored
status makes decide() return already_processed.  (The claim as frozen
fails: e.g. a wallet-load request stored as pending_review is refused as
already processed by the backend wallet-load flow.) -/
theorem c6_pending_guard :
    (∀ (db : DB) (oid action : String) (atype : ActorType) (aid : String) (fa : Option ℤ)
        (rr : Option String) (now : Nat) (order : Order),
      fetchOrder db oid = some order →
      ((Backend.approve_or_reject_order db oid action atype aid fa rr none
          now).2.already_processed = true ↔ order.status ∉ Backend.pendingStatuses)) ∧
    (∀ (db : DB) (rid action : String) (atype : ActorType) (aid : String) (fa : Option ℤ)
        (rr : Option String) (now : Nat) (req : WalletLoadRequest) (reqUser : User),
      fetchLoadRequest db rid = some (req, reqUser) →
      ((Backend.approve_or_reject_wallet_load db rid action atype aid fa rr none
          now).2.already_processed = true ↔ req.status ≠ "pending")) ∧
    (∀ (db : DB) (oid action : String) (atype : ActorType) (aid : String) (fa : Option ℤ)
        (rr : Option String) (now : Nat) (order : Order),
      fetchOrder db oid = some order →
      ((AI9.approve_or_reject_order db oid action atype aid fa rr none
          now).2.already_processed = true ↔ order.status ∉ AI9.valid_pending_states)) ∧
    (∀ (db : DB) (rid action : String) (atype : ActorType) (aid : String) (fa : Option ℤ)
        (rr : Option String) (now : Nat) (req : WalletLoadRequest) (reqUser : User),
      fetchLoadRequest db rid = some (req, reqUser) →
      ((AI9.approve_or_reject_wallet_load db rid action atype aid fa rr none
          now).2.already_processed = true ↔ req.status ∉ AI9.wallet_pending_states)) := by
  refine ⟨?_, ?_, ?_, ?_⟩
  · intro db oid action atype aid fa rr now order hfo
    unfold Backend.approve_or_reject_order
    rw [botAuthFailure_none_bid]
    dsimp only
    rw [hfo]
    dsimp only
    by_cases hs : order.status ∈ Backend.pendingStatuses
    · rw [if_pos hs]
      rcases hfu : fetchUser db order.user_id with _ | user
      · simp [mkFail, hs]
      · dsimp only
        by_cases ha : action = "approve"
        · rw [if_pos ha]
          simp [process_approval_already, hs]
        · rw [if_neg ha]
          simp [process_rejection_already, hs]
    · rw [if_neg hs]
      simp [hs]
  · intro db rid action atype aid fa rr now req reqUser hreq
    unfold Backend.approve_or_reject_wallet_load
    rw [botAuthFailure_none_bid]
    dsimp only
    rw [hreq]
    dsimp only
    by_cases hp : req.status = "pending"
    · rw [if_pos hp]
      by_cases ha : action = "approve"
      · rw [if_pos ha]
        simp [hp]
      · rw [if_neg ha]
        simp [hp]
    · rw [if_neg hp]
      simp [hp]
  · intro db oid action atype aid fa rr now order hfo
    unfold AI9.approve_or_reject_order
    rw [botAuthFailure_none_bid]
    dsimp only
    rw [hfo]
    dsimp only
    by_cases hs : order.status ∈ AI9.valid_pending_states
    · rw [if_pos hs]
      rcases hfu : fetchUser db order.user_id with _ | user
      · simp [mkFail, hs]
      · dsimp only
        by_cases ha : action = "approve"
        · rw [if_pos ha]
          simp [AI9_process_approval_already, hs]
        · rw [if_neg ha]
          simp [AI9_process_rejection_already, hs]
    · rw [if_neg hs]
      simp [hs]
  · intro db rid action atype aid fa rr now req reqUser hreq
    unfold AI9.approve_or_reject_wallet_load
    rw [botAuthFailure_none_bid]
    dsimp only
    rw [hreq]
    dsimp only
    by_cases hp : req.status ∈ AI9.wallet_pending_states
    · rw [if_pos hp]
      by_cases ha : action = "approve"
      · rw [if_pos ha]
        simp [hp]
      · rw [if_neg ha]
        simp [hp]
    · rw [if_neg hp]
      simp [hp]

theorem c6_witness :
    (Backend.approve_or_reject_order
        { emptyDB with orders := [{ baseOrder with status := "initiated" }],
                       users := [baseUser] }
        "o1" "approve" ActorType.admin "a1" none none none 7).2.already_processed = true ↔
      ({ baseOrder with status := "initiated" } : Order).status ∉ Backend.pendingStatuses :=
  c6_pending_guard.1
    { emptyDB with orders := [{ baseOrder with status := "initiated" }],
                   users := [baseUser] }
    "o1" "approve" ActorType.admin "a1" none none 7
    { baseOrder with status := "initiated" } (by decide)

/-- C6 counterexample: a wallet-load request stored with the legacy
synonym pending_review is not treated as processable by the backend
wallet-load flow: decide() refuses it as already processed, refuting the
claim that all four legacy synonyms are accepted in both flows. -/
theorem c6_counterexample :
    (Backend.approve_or_reject_wallet_load
      { emptyDB with wallet_load_requests := [{ baseReq with status := "pending_review" }],
                     users := [baseUser] }
      "r1" "approve" ActorType.admin "a1" none none none 7).2 =
      { success := false, message := "Request already pending_review",
        already_processed := true } := by decide

theorem mem_updateOrder (db : DB) (oid : String) (f : Order → Order) :
    ∀ o2 ∈ (updateOrder db oid f).orders, ∃ o1 ∈ db.orders, o2 = o1 ∨ o2 = f o1 := by
  intro o2 h2
  unfold updateOrder at h2
  dsimp only at h2
  rcases List.mem_map.mp h2 with ⟨o1, h1, heq⟩
  refine ⟨o1, h1, ?_⟩
  by_cases hc : o1.order_id == oid
  · rw [if_pos hc] at heq
    exact Or.inr heq.symm
  · rw [if_neg hc] at heq
    exact Or.inl heq.symm

theorem status_ok_updateOrder (db : DB) (oid : String) (f : Order → Order)
    (hf : ∀ o, (f o).status = o.status ∨ (f o).status ∈ Backend.canonicalStatuses) :
    ∀ o2 ∈ (updateOrder db oid f).orders,
      o2.status ∈ Backend.canonicalStatuses ∨ ∃ o1 ∈ db.orders, o2.status = o1.status := by
  intro o2 h2
  rcases mem_updateOrder db oid f o2 h2 with ⟨o1, h1, heq | heq⟩
  · right
    exact ⟨o1, h1, by rw [heq]⟩
  · rcases hf o1 with hp | hc
    · right
      exact ⟨o1, h1, by rw [heq, hp]⟩
    · left
      rw [heq]
      exact hc

theorem status_ok_trans (a b c : DB)
    (h1 : ∀ o2 ∈ b.orders,
      o2.status ∈ Backend.canonicalStatuses ∨ ∃ o1 ∈ a.orders, o2.status = o1.status)
    (h2 : ∀ o3 ∈ c.orders,
      o3.status ∈ Backend.canonicalStatuses ∨ ∃ o2 ∈ b.orders, o3.status = o2.status) :
    ∀ o3 ∈ c.orders,
      o3.status ∈ Backend.canonicalStatuses ∨ ∃ o1 ∈ a.orders, o3.status = o1.status := by
  intro o3 h3
  rcases h2 o3 h3 with hc | ⟨o2, hm, he⟩
  · left
    exact hc
  · rcases h1 o2 hm with hc | ⟨o1, hm1, he1⟩
    · left
      rw [he]
      exact hc
    · right
      exact ⟨o1, hm1, he.trans he1⟩

set_option maxHeartbeats 1000000 in
theorem finishApproval_status_ok (db : DB) (order : Order) (user : User) (atype : ActorType)
    (aid : String) (amt bon : ℤ) (adj : Bool) (fs : String) (er : Option ExecResult)
    (ee : Option String) (ea : Option Nat) (now : Nat)
    (hfs : fs ∈ Backend.canonicalStatuses) :
    ∀ o2 ∈ (Backend.finishApproval db order user atype aid amt bon adj fs er ee ea
        now).1.orders,
      o2.status ∈ Backend.canonicalStatuses ∨ ∃ o1 ∈ db.orders, o2.status = o1.status := by
  unfold Backend.finishApproval
  dsimp only
  repeat' split
  all_goals
    (intro o2 h2
     rcases mem_updateOrder db order.order_id _ o2 h2 with ⟨o1, hm, heq | heq⟩
     · right
       exact ⟨o1, hm, by rw [heq]⟩
     · rw [heq]
       exact Or.inl hfs)

theorem process_approval_status_ok (db : DB) (order : Order) (user : User)
    (atype : ActorType) (aid : String) (fa : Option ℤ) (now : Nat) :
    ∀ o2 ∈ (Backend._process_approval db order user atype aid fa now).1.orders,
      o2.status ∈ Backend.canonicalStatuses ∨ ∃ o1 ∈ db.orders, o2.status = o1.status := by
  unfold Backend._process_approval
  dsimp only
  have h1 := status_ok_updateOrder db order.order_id
    (fun o => { o with execution_attempts := o.execution_attempts + 1 })
    (fun o => Or.inl rfl)
  have hfs : (Backend.runStrategy (updateOrder db order.order_id
      (fun o => { o with execution_attempts := o.execution_attempts + 1 }))
      order user (fa.getD order.amount) order.bonus_amount now).2.1 ∈
      Backend.canonicalStatuses := by
    rcases runStrategy_final_status (updateOrder db order.order_id
        (fun o => { o with execution_attempts := o.execution_attempts + 1 }))
        order user (fa.getD order.amount) order.bonus_amount now with h | h
    · rw [h]
      decide
    · rw [h]
      decide
  refine status_ok_trans db (updateOrder db order.order_id
    (fun o => { o with execution_attempts := o.execution_attempts + 1 })) _ h1 ?_
  intro o3 h3
  rcases finishApproval_status_ok _ order user atype aid _ _ _ _ _ _ _ now hfs o3 h3 with
    hc | ⟨o2m, hm, he⟩
  · left
    exact hc
  · right
    exact ⟨o2m, (runStrategy_orders _ _ _ _ _ _) ▸ hm, he⟩

theorem process_rejection_status_ok (db : DB) (order : Order) (user : User)
    (atype : ActorType) (aid : String) (rr : Option String) (now : Nat) :
    ∀ o2 ∈ (Backend._process_rejection db order user atype aid rr now).1.orders,
      o2.status ∈ Backend.canonicalStatuses ∨ ∃ o1 ∈ db.orders, o2.status = o1.status := by
  unfold Backend._process_rejection
  dsimp only
  intro o2 h2
  rcases mem_updateOrder db order.order_id _ o2 h2 with ⟨o1, hm, heq | heq⟩
  · right
    exact ⟨o1, hm, by rw [heq]⟩
  · left
    rw [heq]
    exact (show "REJECTED" ∈ Backend.canonicalStatuses by decide)

theorem txnBody_status_ok (db : DB) (order : Order) (user : User) (amt bon : ℤ)
    (adj : Bool) (aid : String) (now : Nat) (out : DB × Bool × Option String)
    (h : AI9.txnBody db order user amt bon adj aid now = .ok out) :
    ∀ o2 ∈ out.1.orders,
      o2.status ∈ Backend.canonicalStatuses ∨ ∃ o1 ∈ db.orders, o2.status = o1.status := by
  unfold AI9.txnBody at h
  dsimp only at h
  split at h
  case h_1 => exact Except.noConfusion h
  case h_2 db1 succ msg heq =>
    injection h with h2
    subst h2
    have horders : db1.orders = db.orders := by
      repeat' split at heq
      all_goals first
        | exact Except.noConfusion heq
        | (injection heq with h3
           injection h3 with h4 h5
           subst h4
           rfl)
    intro o2 h2
    rcases mem_updateOrder db1 order.order_id _ o2 h2 with ⟨o1, hm, heq2 | heq2⟩
    · right
      exact ⟨o1, horders ▸ hm, by rw [heq2]⟩
    · left
      rw [heq2]
      cases succ
      · exact (show "APPROVED_FAILED" ∈ Backend.canonicalStatuses by decide)
      · exact (show "APPROVED_EXECUTED" ∈ Backend.canonicalStatuses by decide)

theorem AI9_process_approval_status_ok (db : DB) (order : Order) (user : User)
    (atype : ActorType) (aid : String) (fa : Option ℤ) (now : Nat) :
    ∀ o2 ∈ (AI9._process_approval db order user atype aid fa now).1.orders,
      o2.status ∈ Backend.canonicalStatuses ∨ ∃ o1 ∈ db.orders, o2.status = o1.status := by
  unfold AI9._process_approval
  dsimp only
  split
  case h_1 e heq =>
    intro o2 h2
    rcases mem_updateOrder db order.order_id _ o2 h2 with ⟨o1, hm, heq2 | heq2⟩
    · right
      exact ⟨o1, hm, by rw [heq2]⟩
    · left
      rw [heq2]
      exact (show "APPROVED_FAILED" ∈ Backend.canonicalStatuses by decide)
  case h_2 db1 succ msg heq =>
    split
    · exact txnBody_status_ok db order user _ _ _ aid now (db1, succ, msg) heq
    · exact txnBody_status_ok db order user _ _ _ aid now (db1, succ, msg) heq

theorem AI9_process_rejection_status_ok (db : DB) (order : Order) (user : User)
    (atype : ActorType) (aid : String) (rr : Option String) (now : Nat) :
    ∀ o2 ∈ (AI9._process_rejection db order user atype aid rr now).1.orders,
      o2.status ∈ Backend.canonicalStatuses ∨ ∃ o1 ∈ db.orders, o2.status = o1.status := by
  unfold AI9._process_rejection
  dsimp only
  intro o2 h2
  rcases mem_updateOrder db order.order_id _ o2 h2 with ⟨o1, hm, heq | heq⟩
  · right
    exact ⟨o1, hm, by rw [heq]⟩
  · left
    rw [heq]
    exact (show "REJECTED" ∈ Backend.canonicalStatuses by decide)

theorem mem_updateLoadRequest (db : DB) (rid : String)
    (g : WalletLoadRequest → WalletLoadRequest) :
    ∀ r2 ∈ (updateLoadRequest db rid g).wallet_load_requests,
      ∃ r1 ∈ db.wallet_load_requests, r2 = r1 ∨ r2 = g r1 := by
  intro r2 h2
  unfold updateLoadRequest at h2
  dsimp only at h2
  rcases List.mem_map.mp h2 with ⟨r1, h1, heq⟩
  refine ⟨r1, h1, ?_⟩
  by_cases hc : r1.request_id == rid
  · rw [if_pos hc] at heq
    exact Or.inr heq.symm
  · rw [if_neg hc] at heq
    exact Or.inl heq.symm

theorem status_ok_updateLoadRequest (db : DB) (rid : String)
    (g : WalletLoadRequest → WalletLoadRequest)
    (hg : ∀ r, (g r).status = r.status ∨ (g r).status ∈ Backend.canonicalStatuses) :
    ∀ r2 ∈ (updateLoadRequest db rid g).wallet_load_requests,
      r2.status ∈ Backend.canonicalStatuses ∨
        ∃ r1 ∈ db.wallet_load_requests, r2.status = r1.status := by
  intro r2 h2
  rcases mem_updateLoadRequest db rid g r2 h2 with ⟨r1, h1, heq | heq⟩
  · right
    exact ⟨r1, h1, by rw [heq]⟩
  · rcases hg r1 with hp | hc
    · right
      exact ⟨r1, h1, by rw [heq, hp]⟩
    · left
      rw [heq]
      exact hc

/-- C7 (amended): the order approval flows of both variants and the
AI9-main wallet-load flow only ever write statuses from the canonical
four-value set PENDING_REVIEW, APPROVED_EXECUTED, APPROVED_FAILED,
REJECTED: after any call, every stored status is canonical or was already
present before the call.  (The claim as frozen fails on the backend
wallet-load flow, which writes the legacy lowercase statuses approved and
rejected.) -/
theorem c7_canonical_writes :
    (∀ (db : DB) (oid action : String) (atype : ActorType) (aid : String) (fa : Option ℤ)
        (rr : Option String) (bid : Option String) (now : Nat),
      ∀ o2 ∈ (Backend.approve_or_reject_order db oid action atype aid fa rr bid
          now).1.orders,
        o2.status ∈ Backend.canonicalStatuses ∨
          ∃ o1 ∈ db.orders, o2.status = o1.status) ∧
    (∀ (db : DB) (oid action : String) (atype : ActorType) (aid : String) (fa : Option ℤ)
        (rr : Option String) (bid : Option String) (now : Nat),
      ∀ o2 ∈ (AI9.approve_or_reject_order db oid action atype aid fa rr bid
          now).1.orders,
        o2.status ∈ Backend.canonicalStatuses ∨
          ∃ o1 ∈ db.orders, o2.status = o1.status) ∧
    (∀ (db : DB) (rid action : String) (atype : ActorType) (aid : String) (fa : Option ℤ)
        (rr : Option String) (bid : Option String) (now : Nat),
      ∀ r2 ∈ (AI9.approve_or_reject_wallet_load db rid action atype aid fa rr bid
          now).1.wallet_load_requests,
        r2.status ∈ Backend.canonicalStatuses ∨
          ∃ r1 ∈ db.wallet_load_requests, r2.status = r1.status) := by
  refine ⟨?_, ?_, ?_⟩
  · intro db oid action atype aid fa rr bid now
    unfold Backend.approve_or_reject_order
    repeat' split
    all_goals first
      | (intro o2 h2
         right
         exact ⟨o2, h2, rfl⟩)
      | (exact process_approval_status_ok _ _ _ _ _ _ _)
      | (exact process_rejection_status_ok _ _ _ _ _ _ _)
  · intro db oid action atype aid fa rr bid now
    unfold AI9.approve_or_reject_order
    repeat' split
    all_goals first
      | (intro o2 h2
         right
         exact ⟨o2, h2, rfl⟩)
      | (exact AI9_process_approval_status_ok _ _ _ _ _ _ _)
      | (exact AI9_process_rejection_status_ok _ _ _ _ _ _ _)
  · intro db rid action atype aid fa rr bid now
    unfold AI9.approve_or_reject_wallet_load
    repeat' split
    all_goals first
      | (intro r2 h2
         right
         exact ⟨r2, h2, rfl⟩)
      | (intro r2 h2
         rcases mem_updateLoadRequest _ _ _ r2 h2 with ⟨r1, hm, heq | heq⟩
         · right
           exact ⟨r1, hm, by rw [heq]⟩
         · left
           rw [heq]
           first
             | exact (show "APPROVED_EXECUTED" ∈ Backend.canonicalStatuses by decide)
             | exact (show "REJECTED" ∈ Backend.canonicalStatuses by decide))

theorem c7_witness :
    baseOrder.status ∈ Backend.canonicalStatuses ∨
      ∃ o1 ∈ ({ emptyDB with orders := [baseOrder], users := [baseUser] } : DB).orders,
        baseOrder.status = o1.status :=
  c7_canonical_writes.1 { emptyDB with orders := [baseOrder], users := [baseUser] }
    "missing" "approve" ActorType.admin "a1" none none none 7 baseOrder (by decide)

/-- C7 counterexample: the backend wallet-load approve path writes the
lowercase legacy status approved, which is outside the canonical
four-value set, refuting the claim that the approval core never writes a
legacy synonym. -/
theorem c7_counterexample :
    requestStatus (Backend.approve_or_reject_wallet_load
      { emptyDB with wallet_load_requests := [baseReq], users := [baseUser] }
      "r1" "approve" ActorType.admin "a1" none none none 7).1 "r1" = some "approved" ∧
    "approved" ∉ Backend.canonicalStatuses := by
  exact ⟨by decide, by decide⟩

theorem finishApproval_fetch (db : DB) (order : Order) (user : User) (atype : ActorType)
    (aid : String) (amt bon : ℤ) (adj : Bool) (fs : String) (er : Option ExecResult)
    (ee : Option String) (ea : Option Nat) (now : Nat) :
    fetchOrder (Backend.finishApproval db order user atype aid amt bon adj fs er ee ea
        now).1 order.order_id =
      (fetchOrder db order.order_id).map (fun o =>
        { o with status := fs, approved_by := some aid, approved_by_type := some atype.str,
                 approved_by_id := some aid, approved_at := some now, amount := amt,
                 total_amount := amt + bon, amount_adjusted := adj,
                 adjusted_by := if adj then some aid else none,
                 adjusted_at := if adj then some now else none, executed_at := ea,
                 execution_result := er, execution_error := ee }) := by
  unfold Backend.finishApproval
  dsimp only
  repeat' split
  all_goals simp only [fetchOrder_emit]
  all_goals exact fetchOrder_updateOrder _ _ _ (fun o => rfl)

theorem fetchOrder_creditStrategy (db : DB) (order : Order) (user : User) (amt bon : ℤ)
    (now : Nat) (oid : String) :
    fetchOrder (Backend.creditStrategy db order user amt bon now).1 oid =
      fetchOrder db oid := rfl

theorem process_approval_credit_fetch (db : DB) (order : Order) (user : User)
    (atype : ActorType) (aid : String) (fa : Option ℤ) (now : Nat)
    (hcred : order.order_type = "wallet_topup" ∨ order.order_type = "deposit")
    (hfo : fetchOrder db order.order_id = some order) :
    fetchOrder (Backend._process_approval db order user atype aid fa now).1
        order.order_id =
      some { order with
        execution_attempts := order.execution_attempts + 1,
        status := "APPROVED_EXECUTED",
        approved_by := some aid, approved_by_type := some atype.str,
        approved_by_id := some aid, approved_at := some now,
        amount := fa.getD order.amount,
        total_amount := fa.getD order.amount + order.bonus_amount,
        amount_adjusted :=
          (match fa with | some f => decide (f ≠ order.amount) | none => false),
        adjusted_by :=
          if (match fa with | some f => decide (f ≠ order.amount) | none => false)
          then some aid else none,
        adjusted_at :=
          if (match fa with | some f => decide (f ≠ order.amount) | none => false)
          then some now else none,
        executed_at := some now,
        execution_result := some { emptyExec with
          success := true, credited := some (fa.getD order.amount),
          wallet_balance := some (user.real_balance + fa.getD order.amount) },
        execution_error := none } := by
  unfold Backend._process_approval
  dsimp only
  have hrw := fun (dbx : DB) (ax bx : ℤ) (nx : Nat) =>
    runStrategy_credit dbx order user ax bx nx hcred
  simp only [hrw]
  rw [finishApproval_fetch, fetchOrder_creditStrategy, fetchOrder_attempts, hfo]
  rfl

theorem finishApproval_adj_event (db : DB) (order : Order) (user : User)
    (atype : ActorType) (aid : String) (amt bon : ℤ) (fs : String) (er : Option ExecResult)
    (ee : Option String) (ea : Option Nat) (now : Nat) (hfs : ¬ fs = "APPROVED_FAILED") :
    ({ etype := "ORDER_AMOUNT_ADJUSTED", reference_id := order.order_id,
       reference_type := "order", user_id := user.user_id, amount := some amt,
       old_amount := some order.amount, new_amount := some amt,
       requires_action := false } : Event) ∈
      (Backend.finishApproval db order user atype aid amt bon true fs er ee ea
        now).1.events := by
  unfold Backend.finishApproval
  dsimp only
  rw [if_neg hfs]
  dsimp only
  rw [if_pos rfl]
  repeat' split
  all_goals first
    | exact List.mem_cons_self _ _
    | exact List.mem_cons_of_mem _ (List.mem_cons_self _ _)

/-- C8 (amended): approving a wallet top-up order with a caller-supplied
final_amount different from the requested amount commits the adjusted
amount: the stored order carries amount = final_amount, amount_adjusted =
true, and the adjusting actor and timestamp, and an ORDER_AMOUNT_ADJUSTED
event carrying both the original and the new amount is emitted.  (The
claim as frozen fails on its preservation part: the original requested
amount is overwritten on the order row and is not preserved in any of the
request audit fields; it survives only in the emitted event payload.) -/
theorem c8_amount_adjustment (db : DB) (order : Order) (user : User) (atype : ActorType)
    (aid : String) (f : ℤ) (now : Nat)
    (hcred : order.order_type = "wallet_topup")
    (hfo : fetchOrder db order.order_id = some order)
    (hne : f ≠ order.amount) :
    (∃ o2, fetchOrder (Backend._process_approval db order user atype aid (some f) now).1
        order.order_id = some o2 ∧
      o2.amount = f ∧ o2.total_amount = f + order.bonus_amount ∧
      o2.amount_adjusted = true ∧ o2.adjusted_by = some aid ∧
      o2.adjusted_at = some now) ∧
    ({ etype := "ORDER_AMOUNT_ADJUSTED", reference_id := order.order_id,
       reference_type := "order", user_id := user.user_id, amount := some f,
       old_amount := some order.amount, new_amount := some f,
       requires_action := false } : Event) ∈
      (Backend._process_approval db order user atype aid (some f) now).1.events := by
  constructor
  · refine ⟨_, process_approval_credit_fetch db order user atype aid (some f) now
      (Or.inl hcred) hfo, rfl, rfl, ?_, ?_, ?_⟩
    · exact decide_eq_true hne
    · show (if decide (f ≠ order.amount) then some aid else none) = some aid
      rw [decide_eq_true hne]
      rfl
    · show (if decide (f ≠ order.amount) then some now else none) = some now
      rw [decide_eq_true hne]
      rfl
  · unfold Backend._process_approval
    dsimp only
    have hfs : (Backend.runStrategy (updateOrder db order.order_id
        (fun o => { o with execution_attempts := o.execution_attempts + 1 }))
        order user ((some f).getD order.amount) order.bonus_amount now).2.1 ≠
        "APPROVED_FAILED" := by
      rw [runStrategy_credit _ _ _ _ _ _ (Or.inl hcred)]
      exact (show ¬ ("APPROVED_EXECUTED" = "APPROVED_FAILED") by decide)
    rw [decide_eq_true hne]
    exact finishApproval_adj_event _ order user atype aid _ _ _ _ _ _ now hfs

theorem c8_witness :
    (∃ o2, fetchOrder (Backend._process_approval
        { emptyDB with orders := [baseOrder], users := [baseUser] }
        baseOrder baseUser ActorType.admin "a1" (some 450) 7).1
        baseOrder.order_id = some o2 ∧
      o2.amount = 450 ∧ o2.total_amount = 450 + baseOrder.bonus_amount ∧
      o2.amount_adjusted = true ∧ o2.adjusted_by = some "a1" ∧
      o2.adjusted_at = some 7) ∧
    ({ etype := "ORDER_AMOUNT_ADJUSTED", reference_id := baseOrder.order_id,
       reference_type := "order", user_id := baseUser.user_id, amount := some 450,
       old_amount := some baseOrder.amount, new_amount := some 450,
       requires_action := false } : Event) ∈
      (Backend._process_approval
        { emptyDB with orders := [baseOrder], users := [baseUser] }
        baseOrder baseUser ActorType.admin "a1" (some 450) 7).1.events :=
  c8_amount_adjustment { emptyDB with orders := [baseOrder], users := [baseUser] }
    baseOrder baseUser ActorType.admin "a1" 450 7 (by decide) (by decide) (by decide)

/-- C8 counterexample: approving the 500.00 wallet top-up with
final_amount 450.00 leaves a stored order none of whose monetary fields
(amount, bonus, total, payout, void, execution-result amounts) holds the
original 500.00: the original amount is not preserved in the request audit
fields, only the emitted adjustment event still carries it. -/
theorem c8_counterexample :
    ((fetchOrder (Backend.approve_or_reject_order
        { emptyDB with orders := [baseOrder], users := [baseUser] }
        "o1" "approve" ActorType.admin "a1" (some 450) none none 7).1 "o1").map
      (fun o => decide ((500 : ℤ) ∈ orderAmounts o))) = some false ∧
    ((fetchOrder (Backend.approve_or_reject_order
        { emptyDB with orders := [baseOrder], users := [baseUser] }
        "o1" "approve" ActorType.admin "a1" (some 450) none none 7).1 "o1").map
      Order.amount) = some 450 ∧
    ((fetchOrder (Backend.approve_or_reject_order
        { emptyDB with orders := [baseOrder], users := [baseUser] }
        "o1" "approve" ActorType.admin "a1" (some 450) none none 7).1 "o1").map
      Order.amount_adjusted) = some true := by
  exact ⟨by decide, by decide, by decide⟩

theorem emit_wlr (db : DB) (e : Event) :
    (emit db e).wallet_load_requests = db.wallet_load_requests := rfl

theorem fetchLoadRequest_find (db : DB) (rid : String) (req : WalletLoadRequest)
    (reqUser : User) (h : fetchLoadRequest db rid = some (req, reqUser)) :
    db.wallet_load_requests.find? (fun r => r.request_id == rid) = some req := by
  unfold fetchLoadRequest at h
  rcases hf : db.wallet_load_requests.find? (fun r => r.request_id == rid) with _ | r
  · rw [hf] at h
    exact Option.noConfusion h
  · rw [hf] at h
    have h2 : (match fetchUser db r.user_id with
        | none => none
        | some u => some (r, u)) = some (req, reqUser) := h
    rcases hu : fetchUser db r.user_id with _ | u
    · rw [hu] at h2
      exact Option.noConfusion h2
    · rw [hu] at h2
      injection h2 with h3
      rw [hf]
      exact congrArg some (congrArg Prod.fst h3 : r = req)

theorem process_rejection_event (db : DB) (order : Order) (user : User) (atype : ActorType)
    (aid : String) (rr : Option String) (now : Nat) :
    ({ etype := (if order.order_type = "wallet_topup" then "WALLET_TOPUP_REJECTED"
                 else if order.order_type = "withdrawal" then "WITHDRAW_REJECTED"
                 else "ORDER_REJECTED"),
       reference_id := order.order_id, reference_type := "order",
       user_id := user.user_id, amount := some order.amount, old_amount := none,
       new_amount := none, requires_action := false } : Event) ∈
      (Backend._process_rejection db order user atype aid rr now).1.events := by
  unfold Backend._process_rejection
  dsimp only
  exact List.mem_cons_self _ _

/-- C10 (amended): any action string other than approve on a pending
request is processed as a rejection, never rejected as invalid input: in
the order flow the order is stored with status REJECTED, a *_REJECTED
event for the order kind is emitted and the call reports success; in the
backend wallet-load flow the request is likewise rejected with a
WALLET_LOAD_REJECTED event and a success result, but the status written
is the lowercase rejected rather than the REJECTED terminal status the
claim names. -/
theorem c10_non_approve_rejects :
    (∀ (db : DB) (oid action : String) (atype : ActorType) (aid : String) (fa : Option ℤ)
        (rr : Option String) (now : Nat) (order : Order) (user : User),
      action ≠ "approve" →
      fetchOrder db oid = some order →
      order.status ∈ Backend.pendingStatuses →
      fetchUser db order.user_id = some user →
      orderStatus (Backend.approve_or_reject_order db oid action atype aid fa rr none
          now).1 oid = some "REJECTED" ∧
      (Backend.approve_or_reject_order db oid action atype aid fa rr none
          now).2.success = true ∧
      ({ etype := (if order.order_type = "wallet_topup" then "WALLET_TOPUP_REJECTED"
                   else if order.order_type = "withdrawal" then "WITHDRAW_REJECTED"
                   else "ORDER_REJECTED"),
         reference_id := order.order_id, reference_type := "order",
         user_id := user.user_id, amount := some order.amount, old_amount := none,
         new_amount := none, requires_action := false } : Event) ∈
        (Backend.approve_or_reject_order db oid action atype aid fa rr none
          now).1.events) ∧
    (∀ (db : DB) (rid action : String) (atype : ActorType) (aid : String) (fa : Option ℤ)
        (rr : Option String) (now : Nat) (req : WalletLoadRequest) (reqUser : User),
      action ≠ "approve" →
      fetchLoadRequest db rid = some (req, reqUser) →
      req.status = "pending" →
      requestStatus (Backend.approve_or_reject_wallet_load db rid action atype aid fa rr
          none now).1 rid = some "rejected" ∧
      (Backend.approve_or_reject_wallet_load db rid action atype aid fa rr none
          now).2.success = true ∧
      ({ etype := "WALLET_LOAD_REJECTED", reference_id := rid,
         reference_type := "wallet_load", user_id := req.user_id,
         amount := some req.amount, old_amount := none, new_amount := none,
         requires_action := false } : Event) ∈
        (Backend.approve_or_reject_wallet_load db rid action atype aid fa rr none
          now).1.events) := by
  constructor
  · intro db oid action atype aid fa rr now order user ha hfo hg hfu
    have hoid : order.order_id = oid := by simpa using List.find?_some hfo
    subst hoid
    unfold Backend.approve_or_reject_order
    rw [botAuthFailure_none_bid]
    dsimp only
    rw [hfo]
    dsimp only
    rw [if_pos hg, hfu]
    dsimp only
    rw [if_neg ha]
    refine ⟨?_, rfl, ?_⟩
    · rw [process_rejection_status, hfo]
      rfl
    · exact process_rejection_event db order user atype aid rr now
  · intro db rid action atype aid fa rr now req reqUser ha hreq hp
    have hfind := fetchLoadRequest_find db rid req reqUser hreq
    unfold Backend.approve_or_reject_wallet_load
    rw [botAuthFailure_none_bid]
    dsimp only
    rw [hreq]
    dsimp only
    rw [if_pos hp]
    try dsimp only
    rw [if_neg ha]
    refine ⟨?_, rfl, ?_⟩
    · unfold requestStatus
      have hupd := findReq_updateLoadRequest db rid (fun r =>
        { r with status := "rejected",
                 rejection_reason := some (rr.getD "Rejected by reviewer"),
                 reviewed_by := some aid, reviewed_at := some now }) (fun r => rfl)
      rw [emit_wlr, hupd, hfind]
      rfl
    · exact List.mem_cons_self _ _

theorem c10_witness :
    orderStatus (Backend.approve_or_reject_order
        { emptyDB with orders := [baseOrder], users := [baseUser] }
        "o1" "reject" ActorType.admin "a1" none (some "nope") none 7).1 "o1" =
      some "REJECTED" ∧
    requestStatus (Backend.approve_or_reject_wallet_load
        { emptyDB with wallet_load_requests := [baseReq], users := [baseUser] }
        "r1" "cancel" ActorType.admin "a1" none none none 7).1 "r1" =
      some "rejected" :=
  ⟨(c10_non_approve_rejects.1 { emptyDB with orders := [baseOrder], users := [baseUser] }
      "o1" "reject" ActorType.admin "a1" none (some "nope") 7 baseOrder baseUser
      (by decide) (by decide) (by decide) (by decide)).1,
   (c10_non_approve_rejects.2
      { emptyDB with wallet_load_requests := [baseReq], users := [baseUser] }
      "r1" "cancel" ActorType.admin "a1" none none 7 baseReq baseUser
      (by decide) (by decide) (by decide)).1⟩

/-- C10 counterexample: in the backend wallet-load flow an action value
outside the declared approve/reject set (invalid_action) is indeed
processed as a rejection instead of being refused, but the stored request
status is the lowercase rejected, not the REJECTED terminal status the
claim asserts. -/
theorem c10_counterexample :
    requestStatus (Backend.approve_or_reject_wallet_load
        { emptyDB with wallet_load_requests := [baseReq], users := [baseUser] }
        "r1" "invalid_action" ActorType.admin "a1" none none none 7).1 "r1" =
      some "rejected" ∧
    ("rejected" : String) ≠ "REJECTED" :=
  ⟨by decide, by decide⟩

end Approval